import Mathlib

/-!
Verification of the breezy_rgb_lcd display driver (src/rgb_display.c,
src/rgb_gfx.c) against its natural-language specification.

The C module is embedded shallowly: the global module state becomes the
structure `DState`; each public entry point becomes a pure function from
state (and call arguments, including the results of the optional external
collaborator callbacks) to state; machine integers are modelled as `Int`
(C `int`) or `Nat` (unsigned values), with explicit `% 2^w` where the C
code relies on wrap-around conversions; byte and pixel arrays are modelled
as total functions from `Int` indices, updated pointwise, so that a write
outside the valid index range is visible in the model rather than
undefined behaviour.
-/

/-! ## Geometry and mode constants (from rgb_display.c / rgb_display.h) -/

def SCREEN_WIDTH : Nat := 1024
def SCREEN_HEIGHT : Nat := 600
def FONT_WIDTH : Nat := 8
def FONT_HEIGHT : Nat := 16
def TEXT_COLS : Nat := 128
def TEXT_ROWS : Nat := 37

def GFX_VGA_WIDTH : Int := 320
def GFX_VGA_HEIGHT : Int := 200
def GFX_VGA_SIZE : Nat := 320 * 200
def GFX_VGA_SCALE : Int := 3
def GFX_VGA_MARGIN_X : Int := 32

def GFX_150P_WIDTH : Int := 256
def GFX_150P_HEIGHT : Int := 150
def GFX_150P_SIZE : Nat := 256 * 150
def GFX_150P_SCALE : Int := 4

/-- Screen mode enumeration values from rgb_display.h (`screen_mode_t`). -/
def SM_TEXT : Int := 3
def SM_VGA13H : Int := 0x13
def SM_150P : Int := 0x80

/-! ## Byte/word array model -/

/-- A byte or pixel array modelled as a total function from `Int` indices.
Reads of never-written indices return the initial value of the function. -/
def Mem : Type := Int → Nat

/-- Single-element store, the model of `a[i] = v`. -/
def memWrite (m : Mem) (i : Int) (v : Nat) : Mem :=
  fun j => if j = i then v else m j

/-- Model of `memset(&a[start], v, len)` over an `Int`-indexed array:
every index in `[start, start+len)` is set to `v`. -/
def memSet (m : Mem) (start len : Int) (v : Nat) : Mem :=
  fun j => if start ≤ j ∧ j < start + len then v else m j

/-! ## VGA 256-color palette construction (init_vga_palette) -/

/-- The standard 16 CGA colors table `s_cga_colors` (RGB565). -/
def s_cga_colors : List Nat :=
  [0x0000, 0x0015, 0x0540, 0x0555, 0xA800, 0xA815, 0xA520, 0xAD55,
   0x52AA, 0x52BF, 0x57EA, 0x57FF, 0xFAAA, 0xFABF, 0xFFE0, 0xFFFF]

/-- One 6x6x6 color-cube entry: the RGB565 word the loop body of
`init_vga_palette` computes for cube levels `(r, g, b)`, each in `[0,5]`. -/
def cubeEntry (r g b : Nat) : Nat :=
  let r5 := (r * 51 * 31) / 255
  let g6 := (g * 51 * 63) / 255
  let b5 := (b * 51 * 31) / 255
  (r5 <<< 11) ||| (g6 <<< 5) ||| b5

/-- One grayscale-ramp entry: the RGB565 word the grayscale loop of
`init_vga_palette` computes for step `i` in `[0,23]`. -/
def grayEntry (i : Nat) : Nat :=
  let gray := 8 + i * 10
  let g5 := (gray * 31) / 255
  let g6 := (gray * 63) / 255
  (g5 <<< 11) ||| (g6 <<< 5) ||| g5

/-- The palette table after `init_vga_palette`: the static table starts
zero-initialized, the first 16 entries are memcpy'd from `s_cga_colors`,
then the triple cube loop writes entries via a running index starting at
16, then the grayscale loop fills entries 232..255. -/
def init_vga_palette : Mem :=
  let p0 : Mem := fun i =>
    if 0 ≤ i ∧ i < 16 then s_cga_colors.getD i.toNat 0 else 0
  let cube := (List.range 6).foldl (fun st r =>
    (List.range 6).foldl (fun st g =>
      (List.range 6).foldl (fun st b =>
        (memWrite st.1 st.2 (cubeEntry r g b), st.2 + 1)) st) st)
    (p0, (16 : Int))
  (List.range 24).foldl (fun p (i : Nat) => memWrite p (232 + (i : Int)) (grayEntry i))
    cube.1

/-! ## Attribute LUT (rebuild_attr_lut) -/

/-- `LCD_ATTR_FG` macro from rgb_display.h. -/
def LCD_ATTR_FG (attr : Nat) : Nat := attr &&& 0x0F

/-- `LCD_ATTR_BG` macro from rgb_display.h. -/
def LCD_ATTR_BG (attr : Nat) : Nat := (attr >>> 4) &&& 0x0F

/-- The entry `(bg32, xor32)` that `rebuild_attr_lut` stores in
`ATTR_LUT[attr]`, as a pure function of the 16-entry text palette it
reads (palette entries are `uint16_t` values). -/
def rebuild_attr_lut (palette : Nat → Nat) (attr : Nat) : Nat × Nat :=
  let fg_idx := LCD_ATTR_FG attr
  let bg_idx := LCD_ATTR_BG attr
  let fg_color := palette fg_idx
  let bg_color := palette bg_idx
  let bg32 := (bg_color <<< 16) ||| bg_color
  let fg32 := (fg_color <<< 16) ||| fg_color
  (bg32, fg32 ^^^ bg32)

/-- A 16-bit color replicated twice into a 32-bit word: the low half and
the high half both hold the color. -/
def repl2 (c : Nat) : Nat := c * 65536 + c

/-- Direct per-entry recomputation of the attribute LUT from the palette,
following the spec's words: `bg_word` is the background color replicated
twice, `xor_word = fg_word XOR bg_word`. -/
def attrEntryDirect (palette : Nat → Nat) (attr : Nat) : Nat × Nat :=
  let fg := repl2 (palette (LCD_ATTR_FG attr))
  let bg := repl2 (palette (LCD_ATTR_BG attr))
  (bg, fg ^^^ bg)

/-! ## Module state (the static variables of rgb_display.c) -/

/-- The mutable module state of rgb_display.c: the current screen mode
`s_screen_mode`, the graphics-mode dimension set (`s_gfx_width`,
`s_gfx_height`, `s_gfx_scale`, `s_gfx_margin_x`), the non-owning text
cell buffer reference `s_display_buffer` (an abstract pointer value), the
graphics framebuffer `s_graphics_framebuffer` (allocation size in bytes
plus its contents), the VGA palette `s_vga_palette`, the cursor and the
frame counter.  The attribute LUT, glyph cache and byte-mask tables are
pure functions of their inputs and are modelled separately. -/
structure DState where
  mode : Int
  gfxWidth : Int
  gfxHeight : Int
  gfxScale : Int
  gfxMarginX : Int
  displayBuffer : Option Int
  framebuffer : Option (Nat × Mem)
  vgaPalette : Mem
  cursorCol : Int
  cursorRow : Int
  frameCount : Nat

/-- The collaborator callback table (`rgb_display_callbacks_t`), together
with the results its hooks return on a given call: a `none` field models
an absent hook (or a NULL callback table), `some r` a present hook
returning `r` when invoked. -/
structure Callbacks where
  get_text_palette : Option (Nat → Nat)
  enter_graphics : Option Int
  exit_graphics : Option Int
  get_text_buffer : Option (Option Int)
  flush_input : Bool

/-- `allocate_graphics_framebuffer`: no-op success when a framebuffer
already exists; otherwise select the mode's size and dimension set,
attempt the heap allocation (the success of `heap_caps_malloc`, in either
pool, is the environment oracle `allocOk`), and on success install a
zero-filled buffer.  Returns the updated state and the C return value. -/
def allocate_graphics_framebuffer (s : DState) (mode : Int) (allocOk : Bool) :
    DState × Int :=
  if s.framebuffer.isSome then (s, 0)
  else if mode = SM_VGA13H then
    let s := { s with gfxWidth := GFX_VGA_WIDTH, gfxHeight := GFX_VGA_HEIGHT,
                      gfxScale := GFX_VGA_SCALE, gfxMarginX := GFX_VGA_MARGIN_X }
    if allocOk then ({ s with framebuffer := some (GFX_VGA_SIZE, fun _ => 0) }, 0)
    else (s, -1)
  else if mode = SM_150P then
    let s := { s with gfxWidth := GFX_150P_WIDTH, gfxHeight := GFX_150P_HEIGHT,
                      gfxScale := GFX_150P_SCALE, gfxMarginX := 0 }
    if allocOk then ({ s with framebuffer := some (GFX_150P_SIZE, fun _ => 0) }, 0)
    else (s, -1)
  else (s, -1)

/-- `free_graphics_framebuffer`: release and null the buffer. -/
def free_graphics_framebuffer (s : DState) : DState :=
  { s with framebuffer := none }

/-- `rgb_display_set_mode`.  The hook results for this call come from
`cb`; the `exit_graphics` and `flush_input` hooks only act on the
collaborator's own state, so invoking them does not change `DState`.
Returns the updated state and the C return value (0 success, -1 failure). -/
def rgb_display_set_mode (s : DState) (cb : Callbacks) (allocOk : Bool)
    (mode : Int) : DState × Int :=
  if mode = s.mode then (s, 0)
  else if mode = SM_VGA13H ∨ mode = SM_150P then
    let rejected : Bool := match cb.enter_graphics with
      | some r => r != 0
      | none => false
    if rejected then (s, -1)
    else
      let sr := allocate_graphics_framebuffer s mode allocOk
      if sr.2 ≠ 0 then
        -- rollback: the exit_graphics hook is invoked (no DState effect)
        (sr.1, -1)
      else
        ({ sr.1 with mode := mode, displayBuffer := none }, 0)
  else if mode = SM_TEXT then
    let s := free_graphics_framebuffer { s with mode := SM_TEXT }
    -- exit_graphics hook invoked (no DState effect)
    let s := match cb.get_text_buffer with
      | some b => { s with displayBuffer := b }
      | none => s
    -- flush_input hook invoked (no DState effect)
    (s, 0)
  else (s, -1)

/-- `rgb_display_get_mode`. -/
def rgb_display_get_mode (s : DState) : Int := s.mode

/-- `rgb_display_get_framebuffer`. -/
def rgb_display_get_framebuffer (s : DState) : Option (Nat × Mem) :=
  s.framebuffer

/-- `rgb_display_get_fb_width`. -/
def rgb_display_get_fb_width (s : DState) : Int := s.gfxWidth

/-- `rgb_display_get_fb_height`. -/
def rgb_display_get_fb_height (s : DState) : Int := s.gfxHeight

/-- `rgb_display_set_buffer`. -/
def rgb_display_set_buffer (s : DState) (cells : Option Int) : DState :=
  { s with displayBuffer := cells }

/-- `rgb_display_set_cursor`. -/
def rgb_display_set_cursor (s : DState) (col row : Int) : DState :=
  { s with cursorCol := col, cursorRow := row }

/-- `rgb_display_set_vga_palette`: memcpy of a full 256-entry table. -/
def rgb_display_set_vga_palette (s : DState) (palette : Nat → Nat) : DState :=
  { s with vgaPalette := fun j =>
      if 0 ≤ j ∧ j < 256 then palette j.toNat else s.vgaPalette j }

/-- `rgb_display_set_vga_palette_entry`. -/
def rgb_display_set_vga_palette_entry (s : DState) (index : Int)
    (rgb565 : Nat) : DState :=
  if 0 ≤ index ∧ index < 256 then
    { s with vgaPalette := memWrite s.vgaPalette index rgb565 }
  else s

/-- `rgb_display_get_vga_palette_entry`. -/
def rgb_display_get_vga_palette_entry (s : DState) (index : Int) : Nat :=
  if 0 ≤ index ∧ index < 256 then s.vgaPalette index else 0

/-- The frame-counter side effect of the bounce callback: the counter is
incremented when the invocation starts at the top of the frame. -/
def on_bounce_empty_frame (s : DState) (pos_px : Nat) : DState :=
  if pos_px / SCREEN_WIDTH = 0 then { s with frameCount := s.frameCount + 1 }
  else s

/-- The state after `rgb_display_init`: text mode, no buffers, zeroed
dimension set, VGA palette built, cursor hidden. -/
def initState : DState where
  mode := SM_TEXT
  gfxWidth := 0
  gfxHeight := 0
  gfxScale := 0
  gfxMarginX := 0
  displayBuffer := none
  framebuffer := none
  vgaPalette := init_vga_palette
  cursorCol := -1
  cursorRow := -1
  frameCount := 0

/-! ## Public operations and reachability -/

/-- One invocation of a public entry point of the module, together with
the oracle inputs it consumes (callback table, hook results, allocation
success).  `refreshPalette` rebuilds the attribute LUT and `waitVsync`
blocks on the vsync semaphore; neither changes any `DState` field. -/
inductive Op where
  | setBuffer (b : Option Int)
  | setMode (cb : Callbacks) (allocOk : Bool) (m : Int)
  | setCursor (col row : Int)
  | setVgaPalette (p : Nat → Nat)
  | setVgaPaletteEntry (i : Int) (c : Nat)
  | refreshPalette
  | waitVsync
  | bounce (pos_px len_bytes : Nat)

/-- Effect of one public operation on the module state. -/
def step (s : DState) : Op → DState
  | .setBuffer b => rgb_display_set_buffer s b
  | .setMode cb allocOk m => (rgb_display_set_mode s cb allocOk m).1
  | .setCursor c r => rgb_display_set_cursor s c r
  | .setVgaPalette p => rgb_display_set_vga_palette s p
  | .setVgaPaletteEntry i c => rgb_display_set_vga_palette_entry s i c
  | .refreshPalette => s
  | .waitVsync => s
  | .bounce pos_px _ => on_bounce_empty_frame s pos_px

/-- Run a sequence of public operations. -/
def runOps (s : DState) (ops : List Op) : DState :=
  ops.foldl step s

/-- A state is reachable when some sequence of public operations leads to
it from the initialized module. -/
def Reachable (s : DState) : Prop :=
  ∃ ops : List Op, runOps initState ops = s

/-- A run is buffer-disciplined from `s` when `rgb_display_set_buffer` is
never invoked with a non-null pointer while a graphics mode is active. -/
def goodFrom (s : DState) : List Op → Prop
  | [] => True
  | op :: rest =>
    (match op with
     | .setBuffer (some _) => s.mode = SM_TEXT
     | _ => True) ∧ goodFrom (step s op) rest

/-! ## Graphics primitives (rgb_gfx.c)

Each primitive re-fetches the current framebuffer pointer and the current
width/height from the display module per call (`get_fb`), and returns the
updated module state. -/

/-- Replace the framebuffer contents, keeping the allocation size. -/
def setFb (s : DState) (sz : Nat) (f : Mem) : DState :=
  { s with framebuffer := some (sz, f) }

/-- Framebuffer byte read helper for stating theorems (0 when no
framebuffer is present). -/
def fbAt (s : DState) (j : Int) : Nat :=
  match s.framebuffer with
  | some (_, f) => f j
  | none => 0

/-- Allocation size of the current framebuffer, if any. -/
def fbSizeOf (s : DState) : Option Nat := s.framebuffer.map Prod.fst

/-- `rgb_gfx_clear`: memset of the whole `w*h` framebuffer. -/
def rgb_gfx_clear (s : DState) (color : Nat) : DState :=
  match rgb_display_get_framebuffer s with
  | none => s
  | some (sz, fb) =>
    let w := rgb_display_get_fb_width s
    let h := rgb_display_get_fb_height s
    if w > 0 ∧ h > 0 then setFb s sz (memSet fb 0 (w * h) color) else s

/-- `rgb_gfx_pixel`. -/
def rgb_gfx_pixel (s : DState) (x y : Int) (color : Nat) : DState :=
  match rgb_display_get_framebuffer s with
  | none => s
  | some (sz, fb) =>
    let w := rgb_display_get_fb_width s
    let h := rgb_display_get_fb_height s
    if 0 ≤ x ∧ x < w ∧ 0 ≤ y ∧ y < h then
      setFb s sz (memWrite fb (y * w + x) color)
    else s

/-- `rgb_gfx_hline`: reject, clip the start and the length against the
x axis, then memset one row segment. -/
def rgb_gfx_hline (s : DState) (x y len : Int) (color : Nat) : DState :=
  match rgb_display_get_framebuffer s with
  | none => s
  | some (sz, fb) =>
    let w := rgb_display_get_fb_width s
    let h := rgb_display_get_fb_height s
    if y < 0 ∨ y ≥ h ∨ len ≤ 0 then s
    else
      -- if (x < 0) { len += x; x = 0; }
      let x2 := if x < 0 then 0 else x
      let len2 := if x < 0 then len + x else len
      -- if (x + len > w) { len = w - x; }
      let len3 := if x2 + len2 > w then w - x2 else len2
      if len3 ≤ 0 then s
      else setFb s sz (memSet fb (y * w + x2) len3 color)

/-- The vline write loop: `len` stores at stride `w` starting at `base`. -/
def vlineLoop (fb : Mem) (base w : Int) (color : Nat) : Nat → Mem
  | 0 => fb
  | n + 1 => memWrite (vlineLoop fb base w color n) (base + (n : Int) * w) color

/-- `rgb_gfx_vline`. -/
def rgb_gfx_vline (s : DState) (x y len : Int) (color : Nat) : DState :=
  match rgb_display_get_framebuffer s with
  | none => s
  | some (sz, fb) =>
    let w := rgb_display_get_fb_width s
    let h := rgb_display_get_fb_height s
    if x < 0 ∨ x ≥ w ∨ len ≤ 0 then s
    else
      -- if (y < 0) { len += y; y = 0; }
      let y2 := if y < 0 then 0 else y
      let len2 := if y < 0 then len + y else len
      -- if (y + len > h) { len = h - y; }
      let len3 := if y2 + len2 > h then h - y2 else len2
      if len3 ≤ 0 then s
      else setFb s sz (vlineLoop fb (y2 * w + x) w color len3.toNat)

/-- `rgb_gfx_rect`: outline from two hlines plus, when the height exceeds
2, two interior vlines. -/
def rgb_gfx_rect (s : DState) (x y rw rh : Int) (color : Nat) : DState :=
  if rw ≤ 0 ∨ rh ≤ 0 then s
  else
    let s := rgb_gfx_hline s x y rw color
    let s := rgb_gfx_hline s x (y + rh - 1) rw color
    if rh > 2 then
      let s := rgb_gfx_vline s x (y + 1) (rh - 2) color
      rgb_gfx_vline s (x + rw - 1) (y + 1) (rh - 2) color
    else s

/-- The rectfill row loop: one memset of width `cw` per row. -/
def rectfillRows (fb : Mem) (w x0 cw y0 : Int) (color : Nat) : Nat → Mem
  | 0 => fb
  | n + 1 =>
    memSet (rectfillRows fb w x0 cw y0 color n) ((y0 + (n : Int)) * w + x0)
      cw color

/-- `rgb_gfx_rectfill`: clip the rectangle to the framebuffer bounds,
then fill row by row. -/
def rgb_gfx_rectfill (s : DState) (x y rw rh : Int) (color : Nat) : DState :=
  match rgb_display_get_framebuffer s with
  | none => s
  | some (sz, fb) =>
    let w := rgb_display_get_fb_width s
    let h := rgb_display_get_fb_height s
    if rw ≤ 0 ∨ rh ≤ 0 then s
    else
      let x0 := if x < 0 then 0 else x
      let y0 := if y < 0 then 0 else y
      let x1 := if x + rw > w then w else x + rw
      let y1 := if y + rh > h then h else y + rh
      let cw := x1 - x0
      let ch := y1 - y0
      if cw ≤ 0 ∨ ch ≤ 0 then s
      else setFb s sz (rectfillRows fb w x0 cw y0 color ch.toNat)

/-- The blit column loop for one destination row: per source column,
bounds-check the destination x, then copy unless the pixel equals the
`uint8_t` conversion of a non-negative transparent color. -/
def blitRowLoop (fb data : Mem) (srcRowBase dstRowBase x w t : Int) :
    Nat → Mem
  | 0 => fb
  | n + 1 =>
    let fb' := blitRowLoop fb data srcRowBase dstRowBase x w t n
    let dx := x + (n : Int)
    if dx < 0 ∨ dx ≥ w then fb'
    else
      let pixel := data (srcRowBase + (n : Int))
      if t < 0 ∨ (pixel : Int) ≠ t % 256 then
        memWrite fb' (dstRowBase + dx) pixel
      else fb'

/-- The blit row loop: per source row, bounds-check the destination y,
then run the column loop. -/
def blitRows (fb data : Mem) (x y w h stride t : Int) (swN : Nat) :
    Nat → Mem
  | 0 => fb
  | n + 1 =>
    let fb' := blitRows fb data x y w h stride t swN n
    let dy := y + (n : Int)
    if dy < 0 ∨ dy ≥ h then fb'
    else blitRowLoop fb' data ((n : Int) * stride) (dy * w) x w t swN

/-- `rgb_gfx_blit` (`data = none` models a NULL source pointer). -/
def rgb_gfx_blit (s : DState) (data : Option Mem) (x y sw sh stride t : Int) :
    DState :=
  match rgb_display_get_framebuffer s with
  | none => s
  | some (sz, fb) =>
    match data with
    | none => s
    | some d =>
      let w := rgb_display_get_fb_width s
      let h := rgb_display_get_fb_height s
      if sw ≤ 0 ∨ sh ≤ 0 then s
      else setFb s sz (blitRows fb d x y w h stride t sw.toNat sh.toNat)

/-- The blit_flip column loop: as `blitRowLoop` with the source column
mirrored when `flip_x` is set. -/
def blitFlipRowLoop (fb data : Mem) (srcRowBase dstRowBase x w t swI : Int)
    (flip_x : Bool) : Nat → Mem
  | 0 => fb
  | n + 1 =>
    let fb' := blitFlipRowLoop fb data srcRowBase dstRowBase x w t swI flip_x n
    let src_x := if flip_x then swI - 1 - (n : Int) else (n : Int)
    let dx := x + (n : Int)
    if dx < 0 ∨ dx ≥ w then fb'
    else
      let pixel := data (srcRowBase + src_x)
      if t < 0 ∨ (pixel : Int) ≠ t % 256 then
        memWrite fb' (dstRowBase + dx) pixel
      else fb'

/-- The blit_flip row loop: as `blitRows` with the source row mirrored
when `flip_y` is set. -/
def blitFlipRows (fb data : Mem) (x y w h stride t swI shI : Int)
    (flip_x flip_y : Bool) (swN : Nat) : Nat → Mem
  | 0 => fb
  | n + 1 =>
    let fb' := blitFlipRows fb data x y w h stride t swI shI flip_x flip_y swN n
    let src_y := if flip_y then shI - 1 - (n : Int) else (n : Int)
    let dy := y + (n : Int)
    if dy < 0 ∨ dy ≥ h then fb'
    else blitFlipRowLoop fb' data (src_y * stride) (dy * w) x w t swI flip_x swN

/-- `rgb_gfx_blit_flip`. -/
def rgb_gfx_blit_flip (s : DState) (data : Option Mem)
    (x y sw sh stride t : Int) (flip_x flip_y : Bool) : DState :=
  match rgb_display_get_framebuffer s with
  | none => s
  | some (sz, fb) =>
    match data with
    | none => s
    | some d =>
      let w := rgb_display_get_fb_width s
      let h := rgb_display_get_fb_height s
      if sw ≤ 0 ∨ sh ≤ 0 then s
      else setFb s sz
        (blitFlipRows fb d x y w h stride t sw sh flip_x flip_y sw.toNat sh.toNat)

/-! ## Scanline synthesizer, graphics path (on_bounce_empty)

The callback first memsets the destination bounce buffer to black, bumps
the frame counter at the top of the frame (modelled in
`on_bounce_empty_frame`), and then, in a graphics mode with a framebuffer
present, renders `num_lines` destination scanlines by nearest-neighbor
upscaling.  The destination buffer is modelled as a function from pixel
index (16-bit pixels) to color.  The text-mode rendering path is not
embedded here; every claim about this function constrains the mode to a
graphics variant, where that path is unreachable. -/

/-- Horizontal replication of one source pixel's color: `rep` consecutive
16-bit stores through the destination pointer. -/
def writeRep (m : Mem) (base : Int) (v : Nat) : Nat → Mem
  | 0 => m
  | k + 1 => memWrite (writeRep m base v k) (base + (k : Int)) v

/-- One destination scanline of the graphics path: for each source column
`x`, translate the framebuffer byte through the VGA palette and replicate
it `rep` times (`rep` is 4 when the scale is 4, else 3, following the
code's branch). -/
def renderRowGfx (pal fbData : Mem) (srcBase destBase : Int) (rep : Nat) :
    Nat → Mem → Mem
  | 0, m => m
  | n + 1, m =>
    let m := renderRowGfx pal fbData srcBase destBase rep n m
    writeRep m (destBase + ((rep * n : Nat) : Int)) (pal (fbData (srcBase + (n : Int))))
      rep

/-- The scanline loop of the graphics path: map each destination line to
its source row by dividing by the upscale factor, skip rows past the
framebuffer height, otherwise render the line after the left margin. -/
def gfxLines (pal fbData : Mem) (gw gh scale margin : Int) (y_start : Nat) :
    Nat → Mem → Mem
  | 0, m => m
  | n + 1, m =>
    let m := gfxLines pal fbData gw gh scale margin y_start n m
    let src_y : Int := ((y_start + n : Nat) : Int) / scale
    if src_y ≥ gh then m
    else
      renderRowGfx pal fbData (src_y * gw)
        ((n : Int) * (SCREEN_WIDTH : Int) + margin)
        (if scale = 4 then 4 else 3) gw.toNat m

/-- The contents of the bounce buffer (as 16-bit pixels) produced by one
invocation of `on_bounce_empty` in a graphics mode: black prefill, then
the graphics rendering loop over `num_lines = (len_bytes/2)/SCREEN_WIDTH`
lines starting at `y_start = pos_px/SCREEN_WIDTH`. -/
def on_bounce_empty_gfx (s : DState) (pos_px len_bytes : Nat) : Mem :=
  let buf0 : Mem := fun _ => 0
  let y_start := pos_px / SCREEN_WIDTH
  let num_lines := (len_bytes / 2) / SCREEN_WIDTH
  if s.mode = SM_VGA13H ∨ s.mode = SM_150P then
    match s.framebuffer with
    | some (_, fbData) =>
      gfxLines s.vgaPalette fbData s.gfxWidth s.gfxHeight s.gfxScale
        s.gfxMarginX y_start num_lines buf0
    | none => buf0
  else buf0

/-! ## Predicates and fixtures used in the statements -/

/-- All hooks absent (no callback table installed). -/
def cbNone : Callbacks :=
  { get_text_palette := none, enter_graphics := none, exit_graphics := none,
    get_text_buffer := none, flush_input := false }

/-- The spec's "exactly one of the two is active at a time": exactly one
of the text-buffer reference and the graphics framebuffer is non-null. -/
def exactlyOneActive (s : DState) : Prop :=
  (s.displayBuffer.isSome = true ∧ s.framebuffer.isSome = false) ∨
  (s.displayBuffer.isSome = false ∧ s.framebuffer.isSome = true)

/-- The buffer/mode invariant that actually holds along buffer-disciplined
runs: the mode is one of the three variants, the graphics framebuffer is
allocated exactly in the graphics modes, and the text-buffer reference is
non-null only in text mode. -/
def BufferModeInv (s : DState) : Prop :=
  (s.mode = SM_TEXT ∨ s.mode = SM_VGA13H ∨ s.mode = SM_150P) ∧
  (s.framebuffer.isSome = true ↔ (s.mode = SM_VGA13H ∨ s.mode = SM_150P)) ∧
  (s.displayBuffer.isSome = true → s.mode = SM_TEXT)

/-- A graphics-primitive call is a silent no-op in these states: no
framebuffer, or a non-positive dimension. -/
def gfxIdle (s : DState) : Prop :=
  s.framebuffer.isSome = false ∨
  rgb_display_get_fb_width s ≤ 0 ∨ rgb_display_get_fb_height s ≤ 0

/-- The graphics primitive taking `s` to `s'` touched only framebuffer
bytes whose linear index lies in `[0, width*height)` — i.e. only pixels
with coordinates in `[0,width) x [0,height)`; everything else (in this
model, every other index of the byte array) is unchanged. -/
def PreservesOutside (s s' : DState) : Prop :=
  ∀ j : Int,
    ¬(0 ≤ j ∧ j < rgb_display_get_fb_width s * rgb_display_get_fb_height s) →
    fbAt s' j = fbAt s j

/-- Fixture state for witnesses: the 256x150 graphics mode with a
zero-filled framebuffer installed. -/
def gfxW : DState :=
  { initState with mode := SM_150P, gfxWidth := 256, gfxHeight := 150,
                   gfxScale := 4, gfxMarginX := 0,
                   framebuffer := some (GFX_150P_SIZE, fun _ => 0) }

/-- Sprite fixture for witnesses: byte 7 at source index 0, byte 1
elsewhere. -/
def spriteW : Mem := fun i => if i = 0 then 7 else 1

/-- Fixture for the C1 witness: the 256x150 graphics state with the
framebuffer filled with palette index 5 and palette entry 5 = 0x1234. -/
def c1W : DState :=
  { gfxW with framebuffer := some (GFX_150P_SIZE, fun _ => 5),
              vgaPalette := fun i => if i = 5 then 0x1234 else 0 }

/-- Trace for the C2 scenario: enter the 256x150 graphics mode (hooks
absent, allocation succeeds), then return to text mode. -/
def c2Trace : List Op :=
  [Op.setMode cbNone true SM_150P, Op.setMode cbNone true SM_TEXT]

/-- Trace for the C3 scenario: enter the 320x200 graphics mode. -/
def c3Trace : List Op := [Op.setMode cbNone true SM_VGA13H]

/-- The state in VGA13H graphics mode reached by `c3Trace`. -/
def c3S1 : DState := runOps initState c3Trace

/-! # Theorems -/

theorem shiftLeft16_or_eq_repl2 (c : Nat) (h : c < 65536) :
    (c <<< 16) ||| c = repl2 c := by
  have h2 : c < 2 ^ 16 := by omega
  have key := Nat.mul_add_lt_is_or h2 c
  rw [Nat.shiftLeft_eq, Nat.mul_comm c (2 ^ 16), ← key, repl2]
  omega

set_option maxRecDepth 20000

/-- C6: for every attribute byte and every 16-entry text palette (entries
are 16-bit colors), the rebuilt attribute-LUT entry has `bg_word` equal to
the background color (palette entry of the attribute's high nibble)
replicated twice into a 32-bit word, `xor_word` equal to the replicated
foreground word XORed with that `bg_word`, and the entry equals the direct
recomputation from the palette (determinism). -/
theorem attr_lut_correct (palette : Nat → Nat) (attr : Nat)
    (hpal : ∀ i, i < 16 → palette i < 65536) (_hattr : attr < 256) :
    (rebuild_attr_lut palette attr).1 = repl2 (palette (LCD_ATTR_BG attr)) ∧
    (rebuild_attr_lut palette attr).2 =
      repl2 (palette (LCD_ATTR_FG attr)) ^^^ repl2 (palette (LCD_ATTR_BG attr)) ∧
    rebuild_attr_lut palette attr = attrEntryDirect palette attr := by
  have hfg : LCD_ATTR_FG attr < 16 := by
    have := Nat.and_le_right (n := attr) (m := 0x0F)
    unfold LCD_ATTR_FG; omega
  have hbg : LCD_ATTR_BG attr < 16 := by
    have := Nat.and_le_right (n := attr >>> 4) (m := 0x0F)
    unfold LCD_ATTR_BG; omega
  have h1 := shiftLeft16_or_eq_repl2 _ (hpal _ hfg)
  have h2 := shiftLeft16_or_eq_repl2 _ (hpal _ hbg)
  refine ⟨?_, ?_, ?_⟩ <;>
    simp only [rebuild_attr_lut, attrEntryDirect, h1, h2]

/-- C6 witness: the LUT properties at the CGA palette and attribute 0x7A. -/
theorem attr_lut_correct_witness :
    (rebuild_attr_lut (fun i => s_cga_colors.getD i 0) 0x7A).1 =
      repl2 ((fun i => s_cga_colors.getD i 0) (LCD_ATTR_BG 0x7A)) ∧
    (rebuild_attr_lut (fun i => s_cga_colors.getD i 0) 0x7A).2 =
      repl2 ((fun i => s_cga_colors.getD i 0) (LCD_ATTR_FG 0x7A)) ^^^
        repl2 ((fun i => s_cga_colors.getD i 0) (LCD_ATTR_BG 0x7A)) ∧
    rebuild_attr_lut (fun i => s_cga_colors.getD i 0) 0x7A =
      attrEntryDirect (fun i => s_cga_colors.getD i 0) 0x7A :=
  attr_lut_correct (fun i => s_cga_colors.getD i 0) 0x7A
    (by decide) (by decide)

/-- C7 counterexample: palette entry `16+6*6-1` (= 51, cube position
r=0, g=5, b=5) does not equal the RGB565 packing of level-5 red, level-5
green and level-5 blue under the cube's channel formula. -/
theorem vga_palette_cube_index_mismatch :
    init_vga_palette (16 + 6 * 6 - 1) = 0x07FF ∧
    cubeEntry 5 5 5 = 0xFFFF ∧
    init_vga_palette (16 + 6 * 6 - 1) ≠ cubeEntry 5 5 5 := by
  refine ⟨by decide, by decide, by decide⟩

/-- C7 (amended): after building the indexed 256-color palette, entry 16
(cube position r=0, g=0, b=0) equals 0, and entry `16+6*6*6-1` (= 231,
the last cube entry, r=g=b=5) equals the RGB565 packing of level-5 red,
level-5 green and level-5 blue under the cube's channel formula. -/
theorem vga_palette_cube_entries :
    init_vga_palette 16 = 0 ∧
    init_vga_palette (16 + 6 * 6 * 6 - 1) = cubeEntry 5 5 5 := by
  refine ⟨by decide, by decide⟩

/-- C9: for every in-range index, setting a VGA palette entry and reading
it back returns the written color; for every out-of-range index, reading
returns 0 and setting leaves the whole palette table (and the rest of the
state) unchanged. -/
theorem vga_palette_entry_roundtrip (s : DState) (i : Int) (c : Nat) :
    (0 ≤ i ∧ i < 256 →
      rgb_display_get_vga_palette_entry
        (rgb_display_set_vga_palette_entry s i c) i = c) ∧
    (¬(0 ≤ i ∧ i < 256) →
      rgb_display_get_vga_palette_entry s i = 0 ∧
      rgb_display_set_vga_palette_entry s i c = s) := by
  constructor
  · intro h
    simp [rgb_display_set_vga_palette_entry, rgb_display_get_vga_palette_entry,
      h, memWrite]
  · intro h
    simp [rgb_display_set_vga_palette_entry, rgb_display_get_vga_palette_entry, h]

/-- C9 witness: the round trip at index 37 and the out-of-range behavior
at index 300, on the initialized state. -/
theorem vga_palette_entry_roundtrip_witness :
    rgb_display_get_vga_palette_entry
      (rgb_display_set_vga_palette_entry initState 37 0xBEEF) 37 = 0xBEEF ∧
    (rgb_display_get_vga_palette_entry initState 300 = 0 ∧
     rgb_display_set_vga_palette_entry initState 300 0xBEEF = initState) :=
  ⟨(vga_palette_entry_roundtrip initState 37 0xBEEF).1 (by decide),
   (vga_palette_entry_roundtrip initState 300 0xBEEF).2 (by decide)⟩

/-! ## Helper lemmas for the mode state machine -/

theorem allocate_fail_preserves (s : DState) (mode : Int) (ok : Bool)
    (h : (allocate_graphics_framebuffer s mode ok).2 ≠ 0) :
    (allocate_graphics_framebuffer s mode ok).1.mode = s.mode ∧
    (allocate_graphics_framebuffer s mode ok).1.displayBuffer = s.displayBuffer ∧
    (allocate_graphics_framebuffer s mode ok).1.framebuffer = s.framebuffer := by
  by_cases h1 : s.framebuffer.isSome
  · simp [allocate_graphics_framebuffer, h1] at h
  · by_cases h2 : mode = SM_VGA13H
    · subst h2
      by_cases h3 : ok
      · simp [allocate_graphics_framebuffer, h1, h3] at h
      · simp [allocate_graphics_framebuffer, h1, h3]
    · by_cases h4 : mode = SM_150P
      · subst h4
        by_cases h3 : ok
        · simp [allocate_graphics_framebuffer, SM_VGA13H, SM_150P, h1, h3] at h
        · simp [allocate_graphics_framebuffer, SM_VGA13H, SM_150P, h1, h3]
      · simp [allocate_graphics_framebuffer, h1, h2, h4]

theorem allocate_shape (s : DState) (m : Int) (ok : Bool) :
    (s.framebuffer.isSome = true ∧
      allocate_graphics_framebuffer s m ok = (s, 0)) ∨
    (s.framebuffer.isSome = false ∧ m = SM_VGA13H ∧ ok = true ∧
      allocate_graphics_framebuffer s m ok =
        ({ s with gfxWidth := GFX_VGA_WIDTH, gfxHeight := GFX_VGA_HEIGHT,
                  gfxScale := GFX_VGA_SCALE, gfxMarginX := GFX_VGA_MARGIN_X,
                  framebuffer := some (GFX_VGA_SIZE, fun _ => 0) }, 0)) ∨
    (s.framebuffer.isSome = false ∧ m = SM_VGA13H ∧ ok = false ∧
      allocate_graphics_framebuffer s m ok =
        ({ s with gfxWidth := GFX_VGA_WIDTH, gfxHeight := GFX_VGA_HEIGHT,
                  gfxScale := GFX_VGA_SCALE, gfxMarginX := GFX_VGA_MARGIN_X }, -1)) ∨
    (s.framebuffer.isSome = false ∧ m = SM_150P ∧ ok = true ∧
      allocate_graphics_framebuffer s m ok =
        ({ s with gfxWidth := GFX_150P_WIDTH, gfxHeight := GFX_150P_HEIGHT,
                  gfxScale := GFX_150P_SCALE, gfxMarginX := 0,
                  framebuffer := some (GFX_150P_SIZE, fun _ => 0) }, 0)) ∨
    (s.framebuffer.isSome = false ∧ m = SM_150P ∧ ok = false ∧
      allocate_graphics_framebuffer s m ok =
        ({ s with gfxWidth := GFX_150P_WIDTH, gfxHeight := GFX_150P_HEIGHT,
                  gfxScale := GFX_150P_SCALE, gfxMarginX := 0 }, -1)) ∨
    (s.framebuffer.isSome = false ∧ ¬ m = SM_VGA13H ∧ ¬ m = SM_150P ∧
      allocate_graphics_framebuffer s m ok = (s, -1)) := by
  by_cases h1 : s.framebuffer.isSome
  · exact Or.inl ⟨h1, by simp [allocate_graphics_framebuffer, h1]⟩
  · rw [Bool.not_eq_true] at h1
    by_cases h2 : m = SM_VGA13H
    · subst h2
      cases ok
      · exact Or.inr (Or.inr (Or.inl ⟨h1, rfl, rfl,
          by simp [allocate_graphics_framebuffer, h1]⟩))
      · exact Or.inr (Or.inl ⟨h1, rfl, rfl,
          by simp [allocate_graphics_framebuffer, h1]⟩)
    · by_cases h3 : m = SM_150P
      · subst h3
        cases ok
        · refine Or.inr (Or.inr (Or.inr (Or.inr (Or.inl ⟨h1, rfl, rfl, ?_⟩))))
          simp [allocate_graphics_framebuffer, h1, SM_VGA13H, SM_150P]
        · refine Or.inr (Or.inr (Or.inr (Or.inl ⟨h1, rfl, rfl, ?_⟩)))
          simp [allocate_graphics_framebuffer, h1, SM_VGA13H, SM_150P]
      · exact Or.inr (Or.inr (Or.inr (Or.inr (Or.inr ⟨h1, h2, h3,
          by simp [allocate_graphics_framebuffer, h1, h2, h3]⟩))))

theorem set_mode_shape (s : DState) (cb : Callbacks) (ok : Bool) (m : Int) :
    (m = s.mode ∧ rgb_display_set_mode s cb ok m = (s, 0)) ∨
    ((m = SM_VGA13H ∨ m = SM_150P) ∧ ¬ m = s.mode ∧
      rgb_display_set_mode s cb ok m = (s, -1)) ∨
    ((m = SM_VGA13H ∨ m = SM_150P) ∧ ¬ m = s.mode ∧
      (allocate_graphics_framebuffer s m ok).2 ≠ 0 ∧
      rgb_display_set_mode s cb ok m =
        ((allocate_graphics_framebuffer s m ok).1, -1)) ∨
    ((m = SM_VGA13H ∨ m = SM_150P) ∧ ¬ m = s.mode ∧
      (allocate_graphics_framebuffer s m ok).2 = 0 ∧
      rgb_display_set_mode s cb ok m =
        ({ (allocate_graphics_framebuffer s m ok).1 with
           mode := m, displayBuffer := none }, 0)) ∨
    (m = SM_TEXT ∧ ¬ m = s.mode ∧
      ((∃ b, cb.get_text_buffer = some b ∧
          rgb_display_set_mode s cb ok m =
            ({ s with mode := SM_TEXT, displayBuffer := b,
                      framebuffer := none }, 0)) ∨
        (cb.get_text_buffer = none ∧
          rgb_display_set_mode s cb ok m =
            ({ s with mode := SM_TEXT, framebuffer := none }, 0)))) ∨
    (¬ m = SM_TEXT ∧ ¬ m = SM_VGA13H ∧ ¬ m = SM_150P ∧
      rgb_display_set_mode s cb ok m = (s, -1)) := by
  by_cases h1 : m = s.mode
  · exact Or.inl ⟨h1, by simp [rgb_display_set_mode, h1]⟩
  · by_cases h2 : m = SM_VGA13H ∨ m = SM_150P
    · rcases hcb : cb.enter_graphics with _ | r
      · by_cases ha : (allocate_graphics_framebuffer s m ok).2 = 0
        · refine Or.inr (Or.inr (Or.inr (Or.inl ⟨h2, h1, ha, ?_⟩)))
          simp [rgb_display_set_mode, h1, h2, hcb, ha]
        · refine Or.inr (Or.inr (Or.inl ⟨h2, h1, ha, ?_⟩))
          simp [rgb_display_set_mode, h1, h2, hcb, ha]
      · by_cases hr : r = 0
        · by_cases ha : (allocate_graphics_framebuffer s m ok).2 = 0
          · refine Or.inr (Or.inr (Or.inr (Or.inl ⟨h2, h1, ha, ?_⟩)))
            simp [rgb_display_set_mode, h1, h2, hcb, hr, ha]
          · refine Or.inr (Or.inr (Or.inl ⟨h2, h1, ha, ?_⟩))
            simp [rgb_display_set_mode, h1, h2, hcb, hr, ha]
        · refine Or.inr (Or.inl ⟨h2, h1, ?_⟩)
          simp [rgb_display_set_mode, h1, h2, hcb, hr]
    · by_cases h3 : m = SM_TEXT
      · refine Or.inr (Or.inr (Or.inr (Or.inr (Or.inl ⟨h3, h1, ?_⟩))))
        subst h3
        rcases hcb : cb.get_text_buffer with _ | b
        · refine Or.inr ⟨rfl, ?_⟩
          simp [rgb_display_set_mode, h1, h2, hcb, free_graphics_framebuffer]
        · refine Or.inl ⟨b, rfl, ?_⟩
          simp [rgb_display_set_mode, h1, h2, hcb, free_graphics_framebuffer]
      · push_neg at h2
        refine Or.inr (Or.inr (Or.inr (Or.inr (Or.inr ⟨h3, h2.1, h2.2, ?_⟩))))
        simp [rgb_display_set_mode, h1, h2.1, h2.2, h3]

theorem inv_step (s : DState) (op : Op) (h : BufferModeInv s)
    (hc : match op with
          | .setBuffer (some _) => s.mode = SM_TEXT
          | _ => True) :
    BufferModeInv (step s op) := by
  obtain ⟨hmode, hfb, hbuf⟩ := h
  cases op with
  | setBuffer b =>
    cases b with
    | none => exact ⟨hmode, hfb, by simp [step, rgb_display_set_buffer]⟩
    | some v => exact ⟨hmode, hfb, fun _ => hc⟩
  | setMode cb ok m =>
    show BufferModeInv (rgb_display_set_mode s cb ok m).1
    rcases set_mode_shape s cb ok m with
        ⟨_, heq⟩ | ⟨_, _, heq⟩ | ⟨hm, _, ha, heq⟩ | ⟨hm, _, ha, heq⟩ |
        ⟨hm, _, hbr⟩ | ⟨_, _, _, heq⟩
    · rw [heq]; exact ⟨hmode, hfb, hbuf⟩
    · rw [heq]; exact ⟨hmode, hfb, hbuf⟩
    · rw [heq]
      rcases allocate_shape s m ok with
          ⟨hfs, haeq⟩ | ⟨hfs, _, _, haeq⟩ | ⟨hfs, _, _, haeq⟩ |
          ⟨hfs, _, _, haeq⟩ | ⟨hfs, _, _, haeq⟩ | ⟨hfs, _, _, haeq⟩
      · rw [haeq] at ha; simp at ha
      · rw [haeq] at ha; simp at ha
      · rw [haeq]; exact ⟨hmode, hfb, hbuf⟩
      · rw [haeq] at ha; simp at ha
      · rw [haeq]; exact ⟨hmode, hfb, hbuf⟩
      · rw [haeq]; exact ⟨hmode, hfb, hbuf⟩
    · rw [heq]
      rcases allocate_shape s m ok with
          ⟨hfs, haeq⟩ | ⟨hfs, _, _, haeq⟩ | ⟨hfs, _, _, haeq⟩ |
          ⟨hfs, _, _, haeq⟩ | ⟨hfs, _, _, haeq⟩ | ⟨hfs, _, _, haeq⟩
      · rw [haeq]
        exact ⟨Or.inr hm, ⟨fun _ => hm, fun _ => hfs⟩, by simp⟩
      · rw [haeq]
        exact ⟨Or.inr hm, ⟨fun _ => hm, fun _ => rfl⟩, by simp⟩
      · rw [haeq] at ha; simp at ha
      · rw [haeq]
        exact ⟨Or.inr hm, ⟨fun _ => hm, fun _ => rfl⟩, by simp⟩
      · rw [haeq] at ha; simp at ha
      · rw [haeq] at ha; simp at ha
    · rcases hbr with ⟨b, _, heq⟩ | ⟨_, heq⟩ <;> rw [heq] <;>
        exact ⟨Or.inl rfl, by simp [SM_TEXT, SM_VGA13H, SM_150P], fun _ => rfl⟩
    · rw [heq]; exact ⟨hmode, hfb, hbuf⟩
  | setCursor c r => exact ⟨hmode, hfb, hbuf⟩
  | setVgaPalette p => exact ⟨hmode, hfb, hbuf⟩
  | setVgaPaletteEntry i c =>
    show BufferModeInv (rgb_display_set_vga_palette_entry s i c)
    unfold rgb_display_set_vga_palette_entry
    split
    · exact ⟨hmode, hfb, hbuf⟩
    · exact ⟨hmode, hfb, hbuf⟩
  | refreshPalette => exact ⟨hmode, hfb, hbuf⟩
  | waitVsync => exact ⟨hmode, hfb, hbuf⟩
  | bounce p l =>
    show BufferModeInv (on_bounce_empty_frame s p)
    unfold on_bounce_empty_frame
    split
    · exact ⟨hmode, hfb, hbuf⟩
    · exact ⟨hmode, hfb, hbuf⟩

theorem inv_run (ops : List Op) : ∀ s : DState, BufferModeInv s →
    goodFrom s ops → BufferModeInv (runOps s ops) := by
  induction ops with
  | nil => intro s h _; exact h
  | cons op rest ih =>
    intro s h hg
    obtain ⟨hcond, hg'⟩ := hg
    exact ih (step s op) (inv_step s op h hcond) hg'

/-! ## Claim theorems for the mode state machine -/

/-- C5: whenever `rgb_display_set_mode` returns failure (hook rejection,
allocation failure, or an unrecognized mode value), the observable module
state is unchanged: `get_mode` still reports the previous mode, the
text-buffer reference is unchanged, and the graphics framebuffer is
exactly what it was before the call. -/
theorem set_mode_failure_atomic (s : DState) (cb : Callbacks) (allocOk : Bool)
    (m : Int) (hfail : (rgb_display_set_mode s cb allocOk m).2 = -1) :
    rgb_display_get_mode (rgb_display_set_mode s cb allocOk m).1
      = rgb_display_get_mode s ∧
    (rgb_display_set_mode s cb allocOk m).1.displayBuffer = s.displayBuffer ∧
    (rgb_display_set_mode s cb allocOk m).1.framebuffer = s.framebuffer := by
  unfold rgb_display_get_mode
  by_cases h1 : m = s.mode
  · simp [rgb_display_set_mode, h1] at hfail
  · by_cases h2 : m = SM_VGA13H ∨ m = SM_150P
    · rcases hcb : cb.enter_graphics with _ | r
      · by_cases ha : (allocate_graphics_framebuffer s m allocOk).2 = 0
        · simp [rgb_display_set_mode, h1, h2, hcb, ha] at hfail
        · have hp := allocate_fail_preserves s m allocOk ha
          simp [rgb_display_set_mode, h1, h2, hcb, ha, hp]
      · by_cases hr : r = 0
        · by_cases ha : (allocate_graphics_framebuffer s m allocOk).2 = 0
          · simp [rgb_display_set_mode, h1, h2, hcb, hr, ha] at hfail
          · have hp := allocate_fail_preserves s m allocOk ha
            simp [rgb_display_set_mode, h1, h2, hcb, hr, ha, hp]
        · simp [rgb_display_set_mode, h1, h2, hcb, hr]
    · by_cases h3 : m = SM_TEXT
      · subst h3
        rcases hcb : cb.get_text_buffer with _ | b <;>
          simp [rgb_display_set_mode, h1, h2, hcb] at hfail
      · simp [rgb_display_set_mode, h1, h2, h3]

/-- C5 witness: a rejected unknown-mode request (99) on the initialized
state leaves mode, text-buffer reference and framebuffer unchanged. -/
theorem set_mode_failure_atomic_witness :
    (rgb_display_set_mode initState cbNone true 99).2 = -1 ∧
    rgb_display_get_mode (rgb_display_set_mode initState cbNone true 99).1
      = rgb_display_get_mode initState ∧
    (rgb_display_set_mode initState cbNone true 99).1.displayBuffer
      = initState.displayBuffer ∧
    (rgb_display_set_mode initState cbNone true 99).1.framebuffer
      = initState.framebuffer :=
  ⟨by decide, set_mode_failure_atomic initState cbNone true 99 (by decide)⟩

/-- C2 (code bug): after a successful graphics session followed by a
return to text mode (a reachable text-mode state), `get_fb_width` and
`get_fb_height` still report the stale 256x150 dimensions instead of the
documented 0, because the dimension set is never cleared. -/
theorem fb_dims_stale_after_graphics :
    Reachable (runOps initState c2Trace) ∧
    rgb_display_get_mode (runOps initState c2Trace) = SM_TEXT ∧
    rgb_display_get_fb_width (runOps initState c2Trace) = 256 ∧
    rgb_display_get_fb_height (runOps initState c2Trace) = 150 :=
  ⟨⟨c2Trace, rfl⟩, by decide, by decide, by decide⟩

/-- C3 counterexample: a direct VGA13H to 150P transition succeeds, yet
the framebuffer keeps the VGA13H allocation size and the reported width
remains 320, not the 256 of the newly requested variant — no
free-and-reallocate happens on a graphics-to-graphics change. -/
theorem gfx_to_gfx_keeps_old_framebuffer :
    Reachable c3S1 ∧
    (rgb_display_set_mode c3S1 cbNone true SM_150P).2 = 0 ∧
    rgb_display_get_mode (rgb_display_set_mode c3S1 cbNone true SM_150P).1
      = SM_150P ∧
    rgb_display_get_fb_width (rgb_display_set_mode c3S1 cbNone true SM_150P).1
      = 320 ∧
    fbSizeOf (rgb_display_set_mode c3S1 cbNone true SM_150P).1
      = some GFX_VGA_SIZE ∧
    rgb_display_get_fb_width (rgb_display_set_mode c3S1 cbNone true SM_150P).1
      ≠ 256 ∧
    fbSizeOf (rgb_display_set_mode c3S1 cbNone true SM_150P).1
      ≠ some GFX_150P_SIZE :=
  ⟨⟨c3Trace, rfl⟩, by decide, by decide, by decide, by decide, by decide,
   by decide⟩

/-- C3 (amended): a successful `set_mode` into a graphics variant from a
state with no framebuffer (i.e. from text mode) allocates a framebuffer
of the requested variant's size and installs that variant's width,
height, upscale factor and margin; but when a framebuffer already exists
(a direct graphics-to-graphics transition), allocation is an idempotent
no-op and the old framebuffer and dimension set are retained. -/
theorem set_mode_graphics_commit (s : DState) (cb : Callbacks)
    (allocOk : Bool) (m : Int) (hm : m = SM_VGA13H ∨ m = SM_150P)
    (hne : ¬ m = s.mode)
    (hok : (rgb_display_set_mode s cb allocOk m).2 = 0) :
    (rgb_display_set_mode s cb allocOk m).1.mode = m ∧
    (s.framebuffer.isSome = false →
      (m = SM_VGA13H →
        (rgb_display_set_mode s cb allocOk m).1.gfxWidth = GFX_VGA_WIDTH ∧
        (rgb_display_set_mode s cb allocOk m).1.gfxHeight = GFX_VGA_HEIGHT ∧
        (rgb_display_set_mode s cb allocOk m).1.gfxScale = GFX_VGA_SCALE ∧
        (rgb_display_set_mode s cb allocOk m).1.gfxMarginX = GFX_VGA_MARGIN_X ∧
        fbSizeOf (rgb_display_set_mode s cb allocOk m).1 = some GFX_VGA_SIZE) ∧
      (m = SM_150P →
        (rgb_display_set_mode s cb allocOk m).1.gfxWidth = GFX_150P_WIDTH ∧
        (rgb_display_set_mode s cb allocOk m).1.gfxHeight = GFX_150P_HEIGHT ∧
        (rgb_display_set_mode s cb allocOk m).1.gfxScale = GFX_150P_SCALE ∧
        (rgb_display_set_mode s cb allocOk m).1.gfxMarginX = 0 ∧
        fbSizeOf (rgb_display_set_mode s cb allocOk m).1 = some GFX_150P_SIZE)) ∧
    (s.framebuffer.isSome = true →
      (rgb_display_set_mode s cb allocOk m).1.framebuffer = s.framebuffer ∧
      (rgb_display_set_mode s cb allocOk m).1.gfxWidth = s.gfxWidth ∧
      (rgb_display_set_mode s cb allocOk m).1.gfxHeight = s.gfxHeight ∧
      (rgb_display_set_mode s cb allocOk m).1.gfxScale = s.gfxScale ∧
      (rgb_display_set_mode s cb allocOk m).1.gfxMarginX = s.gfxMarginX) := by
  have hred : rgb_display_set_mode s cb allocOk m =
      (if (allocate_graphics_framebuffer s m allocOk).2 ≠ 0
       then ((allocate_graphics_framebuffer s m allocOk).1, -1)
       else ({ (allocate_graphics_framebuffer s m allocOk).1 with
               mode := m, displayBuffer := none }, 0)) := by
    rcases hcb : cb.enter_graphics with _ | r
    · simp [rgb_display_set_mode, hne, hm, hcb]
    · have hr : r = 0 := by
        by_contra hr
        rw [rgb_display_set_mode] at hok
        rw [if_neg hne, if_pos hm] at hok
        simp [hcb, hr] at hok
      simp [rgb_display_set_mode, hne, hm, hcb, hr]
  have ha : (allocate_graphics_framebuffer s m allocOk).2 = 0 := by
    by_contra ha
    rw [hred] at hok
    simp [ha] at hok
  rw [hred, if_neg (by simp [ha])]
  by_cases hfb : s.framebuffer.isSome
  · have : allocate_graphics_framebuffer s m allocOk = (s, 0) := by
      simp [allocate_graphics_framebuffer, hfb]
    simp [this, hfb, fbSizeOf]
  · rcases hm with hv | hv <;> subst hv
    · cases allocOk
      · simp [allocate_graphics_framebuffer, hfb] at ha
      · simp [allocate_graphics_framebuffer, hfb, fbSizeOf,
          SM_VGA13H, SM_150P]
    · cases allocOk
      · simp [allocate_graphics_framebuffer, hfb, SM_VGA13H, SM_150P] at ha
      · simp [allocate_graphics_framebuffer, hfb, fbSizeOf,
          SM_VGA13H, SM_150P]

/-- C3 witness: entering 150P from the initialized (text, no framebuffer)
state installs the 256x150x4 dimension set and a 38400-byte framebuffer. -/
theorem set_mode_graphics_commit_witness :
    (rgb_display_set_mode initState cbNone true SM_150P).1.mode = SM_150P ∧
    (initState.framebuffer.isSome = false →
      (SM_150P = SM_VGA13H →
        (rgb_display_set_mode initState cbNone true SM_150P).1.gfxWidth = GFX_VGA_WIDTH ∧
        (rgb_display_set_mode initState cbNone true SM_150P).1.gfxHeight = GFX_VGA_HEIGHT ∧
        (rgb_display_set_mode initState cbNone true SM_150P).1.gfxScale = GFX_VGA_SCALE ∧
        (rgb_display_set_mode initState cbNone true SM_150P).1.gfxMarginX = GFX_VGA_MARGIN_X ∧
        fbSizeOf (rgb_display_set_mode initState cbNone true SM_150P).1 = some GFX_VGA_SIZE) ∧
      (SM_150P = SM_150P →
        (rgb_display_set_mode initState cbNone true SM_150P).1.gfxWidth = GFX_150P_WIDTH ∧
        (rgb_display_set_mode initState cbNone true SM_150P).1.gfxHeight = GFX_150P_HEIGHT ∧
        (rgb_display_set_mode initState cbNone true SM_150P).1.gfxScale = GFX_150P_SCALE ∧
        (rgb_display_set_mode initState cbNone true SM_150P).1.gfxMarginX = 0 ∧
        fbSizeOf (rgb_display_set_mode initState cbNone true SM_150P).1 = some GFX_150P_SIZE)) ∧
    (initState.framebuffer.isSome = true →
      (rgb_display_set_mode initState cbNone true SM_150P).1.framebuffer = initState.framebuffer ∧
      (rgb_display_set_mode initState cbNone true SM_150P).1.gfxWidth = initState.gfxWidth ∧
      (rgb_display_set_mode initState cbNone true SM_150P).1.gfxHeight = initState.gfxHeight ∧
      (rgb_display_set_mode initState cbNone true SM_150P).1.gfxScale = initState.gfxScale ∧
      (rgb_display_set_mode initState cbNone true SM_150P).1.gfxMarginX = initState.gfxMarginX) :=
  set_mode_graphics_commit initState cbNone true SM_150P (Or.inr rfl)
    (by decide) (by decide)

/-- C4 counterexample: the initial state is reachable and in text mode,
yet neither the text-buffer reference nor the graphics framebuffer is
active — "exactly one of the two is active at a time" is false. -/
theorem exactly_one_active_fails_at_init :
    Reachable initState ∧ rgb_display_get_mode initState = SM_TEXT ∧
    ¬ exactlyOneActive initState :=
  ⟨⟨[], rfl⟩, by decide, by simp [exactlyOneActive, initState]⟩

/-- C4 (amended): along every run of public operations in which
`set_text_buffer` is never given a non-null pointer while a graphics mode
is active, the reachable state satisfies: the graphics framebuffer is
non-null exactly in the graphics modes, the text-buffer reference is
non-null only in text mode, and at most one of the two is non-null (both
may be null, as in the initial state). -/
theorem buffer_framebuffer_exclusivity (ops : List Op)
    (hgood : goodFrom initState ops) :
    ((runOps initState ops).framebuffer.isSome = true ↔
      ((runOps initState ops).mode = SM_VGA13H ∨
       (runOps initState ops).mode = SM_150P)) ∧
    ((runOps initState ops).displayBuffer.isSome = true →
      (runOps initState ops).mode = SM_TEXT) ∧
    ¬((runOps initState ops).displayBuffer.isSome = true ∧
      (runOps initState ops).framebuffer.isSome = true) := by
  obtain ⟨hmode, hfb, hbuf⟩ :=
    inv_run ops initState ⟨Or.inl rfl, by decide, by decide⟩ hgood
  refine ⟨hfb, hbuf, ?_⟩
  rintro ⟨hb, hf⟩
  have h1 := hbuf hb
  have h2 := hfb.mp hf
  simp only [SM_TEXT, SM_VGA13H, SM_150P] at h1 h2
  omega

/-- C4 witness: the exclusivity conclusions after entering 150P mode. -/
theorem buffer_framebuffer_exclusivity_witness :
    ((runOps initState [Op.setMode cbNone true SM_150P]).framebuffer.isSome = true ↔
      ((runOps initState [Op.setMode cbNone true SM_150P]).mode = SM_VGA13H ∨
       (runOps initState [Op.setMode cbNone true SM_150P]).mode = SM_150P)) ∧
    ((runOps initState [Op.setMode cbNone true SM_150P]).displayBuffer.isSome = true →
      (runOps initState [Op.setMode cbNone true SM_150P]).mode = SM_TEXT) ∧
    ¬((runOps initState [Op.setMode cbNone true SM_150P]).displayBuffer.isSome = true ∧
      (runOps initState [Op.setMode cbNone true SM_150P]).framebuffer.isSome = true) :=
  buffer_framebuffer_exclusivity [Op.setMode cbNone true SM_150P]
    ⟨trivial, trivial⟩

/-! ## Helper lemmas for the graphics primitives -/

theorem memWrite_ne (m : Mem) (i j : Int) (v : Nat) (h : j ≠ i) :
    memWrite m i v j = m j := by simp [memWrite, h]

theorem memWrite_self (m : Mem) (i : Int) (v : Nat) : memWrite m i v i = v := by
  simp [memWrite]

theorem memSet_out (m : Mem) (start len j : Int) (v : Nat)
    (h : j < start ∨ start + len ≤ j) : memSet m start len v j = m j := by
  have : ¬(start ≤ j ∧ j < start + len) := by omega
  simp [memSet, this]

theorem memSet_in (m : Mem) (start len j : Int) (v : Nat)
    (h1 : start ≤ j) (h2 : j < start + len) : memSet m start len v j = v := by
  simp [memSet, h1, h2]

theorem fbAt_setFb (s : DState) (sz : Nat) (f : Mem) (j : Int) :
    fbAt (setFb s sz f) j = f j := rfl

theorem setFb_self (s : DState) (sz : Nat) (f : Mem)
    (h : s.framebuffer = some (sz, f)) : setFb s sz f = s := by
  cases s
  simp_all [setFb]

theorem fbAt_some (s : DState) (sz : Nat) (f : Mem) (j : Int)
    (h : s.framebuffer = some (sz, f)) : fbAt s j = f j := by
  simp [fbAt, h]

theorem gfx_idle_dims (s : DState) (sz : Nat) (fb : Mem) (h : gfxIdle s)
    (hfb : s.framebuffer = some (sz, fb)) :
    rgb_display_get_fb_width s ≤ 0 ∨ rgb_display_get_fb_height s ≤ 0 := by
  rcases h with h | h | h
  · rw [hfb] at h; simp at h
  · exact Or.inl h
  · exact Or.inr h

theorem clear_idle (s : DState) (c : Nat) (h : gfxIdle s) :
    rgb_gfx_clear s c = s := by
  rcases hfb : s.framebuffer with _ | ⟨sz, fb⟩
  · simp [rgb_gfx_clear, rgb_display_get_framebuffer, hfb]
  · have hwh := gfx_idle_dims s sz fb h hfb
    have : ¬(rgb_display_get_fb_width s > 0 ∧ rgb_display_get_fb_height s > 0) := by
      omega
    simp [rgb_gfx_clear, rgb_display_get_framebuffer, hfb, this]

theorem pixel_idle (s : DState) (x y : Int) (c : Nat) (h : gfxIdle s) :
    rgb_gfx_pixel s x y c = s := by
  rcases hfb : s.framebuffer with _ | ⟨sz, fb⟩
  · simp [rgb_gfx_pixel, rgb_display_get_framebuffer, hfb]
  · have hwh := gfx_idle_dims s sz fb h hfb
    have : ¬(0 ≤ x ∧ x < rgb_display_get_fb_width s ∧ 0 ≤ y ∧
        y < rgb_display_get_fb_height s) := by omega
    simp [rgb_gfx_pixel, rgb_display_get_framebuffer, hfb, this]

theorem hline_idle (s : DState) (x y len : Int) (c : Nat) (h : gfxIdle s) :
    rgb_gfx_hline s x y len c = s := by
  rcases hfb : s.framebuffer with _ | ⟨sz, fb⟩
  · simp [rgb_gfx_hline, rgb_display_get_framebuffer, hfb]
  · have hwh := gfx_idle_dims s sz fb h hfb
    by_cases hx : x < 0 <;>
      simp only [rgb_gfx_hline, rgb_display_get_framebuffer, hfb, hx,
        if_true, if_false, ite_true, ite_false] <;>
      split_ifs <;> first | rfl | omega

theorem vline_idle (s : DState) (x y len : Int) (c : Nat) (h : gfxIdle s) :
    rgb_gfx_vline s x y len c = s := by
  rcases hfb : s.framebuffer with _ | ⟨sz, fb⟩
  · simp [rgb_gfx_vline, rgb_display_get_framebuffer, hfb]
  · have hwh := gfx_idle_dims s sz fb h hfb
    by_cases hy : y < 0 <;>
      simp only [rgb_gfx_vline, rgb_display_get_framebuffer, hfb, hy,
        if_true, if_false, ite_true, ite_false] <;>
      split_ifs <;> first | rfl | omega

theorem rect_idle (s : DState) (x y rw rh : Int) (c : Nat) (h : gfxIdle s) :
    rgb_gfx_rect s x y rw rh c = s := by
  have hh : ∀ a b l cc, rgb_gfx_hline s a b l cc = s :=
    fun a b l cc => hline_idle s a b l cc h
  have hv : ∀ a b l cc, rgb_gfx_vline s a b l cc = s :=
    fun a b l cc => vline_idle s a b l cc h
  unfold rgb_gfx_rect
  split_ifs <;> simp [hh, hv]

theorem rectfill_idle (s : DState) (x y rw rh : Int) (c : Nat) (h : gfxIdle s) :
    rgb_gfx_rectfill s x y rw rh c = s := by
  rcases hfb : s.framebuffer with _ | ⟨sz, fb⟩
  · simp [rgb_gfx_rectfill, rgb_display_get_framebuffer, hfb]
  · have hwh := gfx_idle_dims s sz fb h hfb
    by_cases hx : x < 0 <;> by_cases hy : y < 0 <;>
      simp only [rgb_gfx_rectfill, rgb_display_get_framebuffer, hfb, hx, hy,
        if_true, if_false, ite_true, ite_false] <;>
      split_ifs <;> first | rfl | omega

theorem blitRowLoop_noop (fb data : Mem) (srcB dstB x w t : Int) (hw : w ≤ 0) :
    ∀ n, blitRowLoop fb data srcB dstB x w t n = fb := by
  intro n
  induction n with
  | zero => rfl
  | succ k ih =>
    have hg : x + (k : Int) < 0 ∨ x + (k : Int) ≥ w := by omega
    simp only [blitRowLoop, ih]
    simp [hg]

theorem blitRows_noop (fb d : Mem) (x y w h st t : Int) (swN : Nat)
    (hwh : w ≤ 0 ∨ h ≤ 0) :
    ∀ rows, blitRows fb d x y w h st t swN rows = fb := by
  intro rows
  induction rows with
  | zero => rfl
  | succ k ih =>
    rcases hwh with hw | hh
    · by_cases hg : y + (k : Int) < 0 ∨ y + (k : Int) ≥ h
      · simp only [blitRows, ih]; simp [hg]
      · simp only [blitRows, ih]
        simp [hg, blitRowLoop_noop _ d _ _ x w t hw]
    · have hg : y + (k : Int) < 0 ∨ y + (k : Int) ≥ h := by omega
      simp only [blitRows, ih]; simp [hg]

theorem blit_idle (s : DState) (d : Option Mem) (x y sw sh st t : Int)
    (h : gfxIdle s) : rgb_gfx_blit s d x y sw sh st t = s := by
  rcases hfb : s.framebuffer with _ | ⟨sz, fb⟩
  · simp [rgb_gfx_blit, rgb_display_get_framebuffer, hfb]
  · have hwh := gfx_idle_dims s sz fb h hfb
    rcases d with _ | d
    · simp [rgb_gfx_blit, rgb_display_get_framebuffer, hfb]
    · by_cases hsw : sw ≤ 0 ∨ sh ≤ 0
      · simp [rgb_gfx_blit, rgb_display_get_framebuffer, hfb, hsw]
      · simp only [rgb_gfx_blit, rgb_display_get_framebuffer, hfb]
        rw [if_neg hsw,
          blitRows_noop fb d x y _ _ st t sw.toNat hwh sh.toNat]
        exact setFb_self s sz fb hfb

theorem blitFlipRowLoop_noop (fb data : Mem) (srcB dstB x w t swI : Int)
    (fx : Bool) (hw : w ≤ 0) :
    ∀ n, blitFlipRowLoop fb data srcB dstB x w t swI fx n = fb := by
  intro n
  induction n with
  | zero => rfl
  | succ k ih =>
    have hg : x + (k : Int) < 0 ∨ x + (k : Int) ≥ w := by omega
    simp only [blitFlipRowLoop, ih]
    simp [hg]

theorem blitFlipRows_noop (fb d : Mem) (x y w h st t swI shI : Int)
    (fx fy : Bool) (swN : Nat) (hwh : w ≤ 0 ∨ h ≤ 0) :
    ∀ rows, blitFlipRows fb d x y w h st t swI shI fx fy swN rows = fb := by
  intro rows
  induction rows with
  | zero => rfl
  | succ k ih =>
    rcases hwh with hw | hh
    · by_cases hg : y + (k : Int) < 0 ∨ y + (k : Int) ≥ h
      · simp only [blitFlipRows, ih]; simp [hg]
      · simp only [blitFlipRows, ih]
        simp [hg, blitFlipRowLoop_noop _ d _ _ x w t swI fx hw]
    · have hg : y + (k : Int) < 0 ∨ y + (k : Int) ≥ h := by omega
      simp only [blitFlipRows, ih]; simp [hg]

theorem blit_flip_idle (s : DState) (d : Option Mem) (x y sw sh st t : Int)
    (fx fy : Bool) (h : gfxIdle s) :
    rgb_gfx_blit_flip s d x y sw sh st t fx fy = s := by
  rcases hfb : s.framebuffer with _ | ⟨sz, fb⟩
  · simp [rgb_gfx_blit_flip, rgb_display_get_framebuffer, hfb]
  · have hwh := gfx_idle_dims s sz fb h hfb
    rcases d with _ | d
    · simp [rgb_gfx_blit_flip, rgb_display_get_framebuffer, hfb]
    · by_cases hsw : sw ≤ 0 ∨ sh ≤ 0
      · simp [rgb_gfx_blit_flip, rgb_display_get_framebuffer, hfb, hsw]
      · simp only [rgb_gfx_blit_flip, rgb_display_get_framebuffer, hfb]
        rw [if_neg hsw,
          blitFlipRows_noop fb d x y _ _ st t sw sh fx fy sw.toNat hwh sh.toNat]
        exact setFb_self s sz fb hfb

theorem row_index_ne (w dy dy' dx dx' : Int) (hdx0 : 0 ≤ dx) (hdxw : dx < w)
    (hdx0' : 0 ≤ dx') (hdxw' : dx' < w) (hne : dy ≠ dy') :
    dy * w + dx ≠ dy' * w + dx' := by
  intro heq
  rcases lt_or_gt_of_ne hne with hlt | hlt
  · have h1 : (dy + 1) * w ≤ dy' * w :=
      mul_le_mul_of_nonneg_right (by omega) (by omega)
    nlinarith
  · have h1 : (dy' + 1) * w ≤ dy * w :=
      mul_le_mul_of_nonneg_right (by omega) (by omega)
    nlinarith

theorem rowcol_lt (w h dy dx : Int) (hdy0 : 0 ≤ dy) (hdyh : dy < h)
    (hdx0 : 0 ≤ dx) (hdxw : dx < w) :
    0 ≤ dy * w + dx ∧ dy * w + dx < w * h := by
  have hw : 0 ≤ w := by omega
  constructor
  · nlinarith [mul_nonneg hdy0 hw]
  · nlinarith [mul_le_mul_of_nonneg_right (show dy + 1 ≤ h by omega) hw]

theorem seg_subset (w h y a len : Int) (hy0 : 0 ≤ y) (hyh : y < h)
    (ha : 0 ≤ a) (hal : a + len ≤ w) (hl : 0 < len) :
    0 ≤ y * w + a ∧ y * w + a + len ≤ w * h := by
  have hw : 0 ≤ w := by omega
  constructor
  · nlinarith [mul_nonneg hy0 hw]
  · nlinarith [mul_le_mul_of_nonneg_right (show y + 1 ≤ h by omega) hw]

theorem vlineLoop_out (fb : Mem) (base w : Int) (c : Nat) :
    ∀ len (j : Int), (∀ i : Nat, i < len → j ≠ base + (i : Int) * w) →
    vlineLoop fb base w c len j = fb j := by
  intro len
  induction len with
  | zero => intro j _; rfl
  | succ k ih =>
    intro j hj
    simp only [vlineLoop]
    rw [memWrite_ne _ _ _ _ (hj k (by omega))]
    exact ih j (fun i hi => hj i (by omega))

theorem rectfillRows_out (fb : Mem) (w x0 cw y0 : Int) (c : Nat) :
    ∀ rows (j : Int),
    (∀ i : Nat, i < rows →
      ¬((y0 + (i : Int)) * w + x0 ≤ j ∧ j < (y0 + (i : Int)) * w + x0 + cw)) →
    rectfillRows fb w x0 cw y0 c rows j = fb j := by
  intro rows
  induction rows with
  | zero => intro j _; rfl
  | succ k ih =>
    intro j hj
    simp only [rectfillRows]
    rw [memSet_out _ _ _ _ _ (by have := hj k (by omega); omega)]
    exact ih j (fun i hi => hj i (by omega))

theorem rectfillRows_in (fb : Mem) (w x0 cw y0 : Int) (c : Nat) :
    ∀ rows (j : Int) (i : Nat), i < rows →
    (y0 + (i : Int)) * w + x0 ≤ j → j < (y0 + (i : Int)) * w + x0 + cw →
    rectfillRows fb w x0 cw y0 c rows j = c := by
  intro rows
  induction rows with
  | zero => intro j i hi; omega
  | succ k ih =>
    intro j i hi h1 h2
    simp only [rectfillRows]
    by_cases hin : (y0 + (k : Int)) * w + x0 ≤ j ∧ j < (y0 + (k : Int)) * w + x0 + cw
    · exact memSet_in _ _ _ _ _ hin.1 hin.2
    · rw [memSet_out _ _ _ _ _ (by omega)]
      have hik : i ≠ k := by
        intro he; subst he; exact hin ⟨h1, h2⟩
      exact ih j i (by omega) h1 h2

theorem blitRowLoop_out (fb data : Mem) (srcB dstB x w t : Int) :
    ∀ count (j : Int),
    (∀ n : Nat, n < count → 0 ≤ x + (n : Int) → x + (n : Int) < w →
      j ≠ dstB + (x + (n : Int))) →
    blitRowLoop fb data srcB dstB x w t count j = fb j := by
  intro count
  induction count with
  | zero => intro j _; rfl
  | succ k ih =>
    intro j hj
    simp only [blitRowLoop]
    split_ifs with h1 h2
    · exact ih j (fun n hn => hj n (by omega))
    · rw [memWrite_ne _ _ _ _ (hj k (by omega) (by omega) (by omega))]
      exact ih j (fun n hn => hj n (by omega))
    · exact ih j (fun n hn => hj n (by omega))

theorem blitRows_out (fb d : Mem) (x y w h st t : Int) (swN : Nat) :
    ∀ rows (j : Int),
    (∀ m : Nat, m < rows → 0 ≤ y + (m : Int) → y + (m : Int) < h →
      ∀ dx : Int, 0 ≤ dx → dx < w → j ≠ (y + (m : Int)) * w + dx) →
    blitRows fb d x y w h st t swN rows j = fb j := by
  intro rows
  induction rows with
  | zero => intro j _; rfl
  | succ k ih =>
    intro j hj
    simp only [blitRows]
    split_ifs with h1
    · exact ih j (fun m hm => hj m (by omega))
    · rw [blitRowLoop_out _ _ _ _ _ _ _ _ _
        (fun n _ hn1 hn2 => hj k (by omega) (by omega) (by omega)
          (x + (n : Int)) hn1 hn2)]
      exact ih j (fun m hm => hj m (by omega))

theorem blitFlipRowLoop_out (fb data : Mem) (srcB dstB x w t swI : Int)
    (fx : Bool) :
    ∀ count (j : Int),
    (∀ n : Nat, n < count → 0 ≤ x + (n : Int) → x + (n : Int) < w →
      j ≠ dstB + (x + (n : Int))) →
    blitFlipRowLoop fb data srcB dstB x w t swI fx count j = fb j := by
  intro count
  induction count with
  | zero => intro j _; rfl
  | succ k ih =>
    intro j hj
    simp only [blitFlipRowLoop]
    split_ifs
    all_goals first
      | (rw [memWrite_ne _ _ _ _ (hj k (by omega) (by omega) (by omega))]
         exact ih j (fun n hn => hj n (by omega)))
      | exact ih j (fun n hn => hj n (by omega))

theorem blitFlipRows_out (fb d : Mem) (x y w h st t swI shI : Int)
    (fx fy : Bool) (swN : Nat) :
    ∀ rows (j : Int),
    (∀ m : Nat, m < rows → 0 ≤ y + (m : Int) → y + (m : Int) < h →
      ∀ dx : Int, 0 ≤ dx → dx < w → j ≠ (y + (m : Int)) * w + dx) →
    blitFlipRows fb d x y w h st t swI shI fx fy swN rows j = fb j := by
  intro rows
  induction rows with
  | zero => intro j _; rfl
  | succ k ih =>
    intro j hj
    simp only [blitFlipRows]
    split_ifs
    all_goals first
      | (rw [blitFlipRowLoop_out _ _ _ _ _ _ _ _ _ _ _
           (fun n _ hn1 hn2 => hj k (by omega) (by omega) (by omega)
             (x + (n : Int)) hn1 hn2)]
         exact ih j (fun m hm => hj m (by omega)))
      | exact ih j (fun m hm => hj m (by omega))

theorem clear_shape (s : DState) (sz : Nat) (fb : Mem) (c : Nat)
    (hfb : s.framebuffer = some (sz, fb)) :
    rgb_gfx_clear s c = s ∨
    (0 < rgb_display_get_fb_width s ∧ 0 < rgb_display_get_fb_height s ∧
      rgb_gfx_clear s c = setFb s sz (memSet fb 0
        (rgb_display_get_fb_width s * rgb_display_get_fb_height s) c)) := by
  by_cases hwh : rgb_display_get_fb_width s > 0 ∧ rgb_display_get_fb_height s > 0
  · right
    exact ⟨hwh.1, hwh.2, by simp [rgb_gfx_clear, rgb_display_get_framebuffer, hfb, hwh]⟩
  · left; simp [rgb_gfx_clear, rgb_display_get_framebuffer, hfb, hwh]

theorem pixel_shape (s : DState) (sz : Nat) (fb : Mem) (x y : Int) (c : Nat)
    (hfb : s.framebuffer = some (sz, fb)) :
    rgb_gfx_pixel s x y c = s ∨
    (0 ≤ x ∧ x < rgb_display_get_fb_width s ∧ 0 ≤ y ∧
      y < rgb_display_get_fb_height s ∧
      rgb_gfx_pixel s x y c =
        setFb s sz (memWrite fb (y * rgb_display_get_fb_width s + x) c)) := by
  by_cases hg : 0 ≤ x ∧ x < rgb_display_get_fb_width s ∧ 0 ≤ y ∧
      y < rgb_display_get_fb_height s
  · right
    exact ⟨hg.1, hg.2.1, hg.2.2.1, hg.2.2.2,
      by simp [rgb_gfx_pixel, rgb_display_get_framebuffer, hfb, hg]⟩
  · left; simp [rgb_gfx_pixel, rgb_display_get_framebuffer, hfb, hg]

theorem hline_shape (s : DState) (sz : Nat) (fb : Mem) (x y len : Int) (c : Nat)
    (hfb : s.framebuffer = some (sz, fb)) :
    rgb_gfx_hline s x y len c = s ∨
    ∃ x' len', 0 ≤ x' ∧ x' + len' ≤ rgb_display_get_fb_width s ∧ 0 < len' ∧
      0 ≤ y ∧ y < rgb_display_get_fb_height s ∧
      rgb_gfx_hline s x y len c =
        setFb s sz (memSet fb (y * rgb_display_get_fb_width s + x') len' c) := by
  simp only [rgb_gfx_hline, rgb_display_get_framebuffer, hfb]
  split_ifs <;>
    first
      | (left; rfl)
      | (right; refine ⟨_, _, ?_, ?_, ?_, ?_, ?_, rfl⟩ <;> omega)

theorem vline_shape (s : DState) (sz : Nat) (fb : Mem) (x y len : Int) (c : Nat)
    (hfb : s.framebuffer = some (sz, fb)) :
    rgb_gfx_vline s x y len c = s ∨
    ∃ y' len', 0 ≤ y' ∧ y' + len' ≤ rgb_display_get_fb_height s ∧ 0 < len' ∧
      0 ≤ x ∧ x < rgb_display_get_fb_width s ∧
      rgb_gfx_vline s x y len c =
        setFb s sz (vlineLoop fb (y' * rgb_display_get_fb_width s + x)
          (rgb_display_get_fb_width s) c len'.toNat) := by
  simp only [rgb_gfx_vline, rgb_display_get_framebuffer, hfb]
  split_ifs <;>
    first
      | (left; rfl)
      | (right; refine ⟨_, _, ?_, ?_, ?_, ?_, ?_, rfl⟩ <;> omega)

theorem rectfill_shape (s : DState) (sz : Nat) (fb : Mem) (x y rw rh : Int)
    (c : Nat) (hfb : s.framebuffer = some (sz, fb)) :
    rgb_gfx_rectfill s x y rw rh c = s ∨
    ∃ x0 cw y0 ch, 0 ≤ x0 ∧ x0 + cw ≤ rgb_display_get_fb_width s ∧ 0 < cw ∧
      0 ≤ y0 ∧ y0 + ch ≤ rgb_display_get_fb_height s ∧ 0 < ch ∧
      rgb_gfx_rectfill s x y rw rh c =
        setFb s sz (rectfillRows fb (rgb_display_get_fb_width s) x0 cw y0 c
          ch.toNat) := by
  simp only [rgb_gfx_rectfill, rgb_display_get_framebuffer, hfb]
  split_ifs <;>
    first
      | (left; rfl)
      | (right; refine ⟨_, _, _, _, ?_, ?_, ?_, ?_, ?_, ?_, rfl⟩ <;> omega)

theorem blit_shape (s : DState) (sz : Nat) (fb d : Mem) (x y sw sh st t : Int)
    (hfb : s.framebuffer = some (sz, fb)) :
    ((sw ≤ 0 ∨ sh ≤ 0) ∧ rgb_gfx_blit s (some d) x y sw sh st t = s) ∨
    (0 < sw ∧ 0 < sh ∧
      rgb_gfx_blit s (some d) x y sw sh st t =
        setFb s sz (blitRows fb d x y (rgb_display_get_fb_width s)
          (rgb_display_get_fb_height s) st t sw.toNat sh.toNat)) := by
  by_cases hs : sw ≤ 0 ∨ sh ≤ 0
  · exact Or.inl ⟨hs, by simp [rgb_gfx_blit, rgb_display_get_framebuffer, hfb, hs]⟩
  · right
    exact ⟨by omega, by omega,
      by simp [rgb_gfx_blit, rgb_display_get_framebuffer, hfb, hs]⟩

theorem blit_flip_shape (s : DState) (sz : Nat) (fb d : Mem)
    (x y sw sh st t : Int) (fx fy : Bool)
    (hfb : s.framebuffer = some (sz, fb)) :
    ((sw ≤ 0 ∨ sh ≤ 0) ∧ rgb_gfx_blit_flip s (some d) x y sw sh st t fx fy = s) ∨
    (0 < sw ∧ 0 < sh ∧
      rgb_gfx_blit_flip s (some d) x y sw sh st t fx fy =
        setFb s sz (blitFlipRows fb d x y (rgb_display_get_fb_width s)
          (rgb_display_get_fb_height s) st t sw sh fx fy sw.toNat sh.toNat)) := by
  by_cases hs : sw ≤ 0 ∨ sh ≤ 0
  · exact Or.inl ⟨hs,
      by simp [rgb_gfx_blit_flip, rgb_display_get_framebuffer, hfb, hs]⟩
  · right
    exact ⟨by omega, by omega,
      by simp [rgb_gfx_blit_flip, rgb_display_get_framebuffer, hfb, hs]⟩

theorem clear_outside (s : DState) (c : Nat) :
    PreservesOutside s (rgb_gfx_clear s c) := by
  rcases hfb : s.framebuffer with _ | ⟨sz, fb⟩
  · intro j hj; simp [rgb_gfx_clear, rgb_display_get_framebuffer, hfb]
  · rcases clear_shape s sz fb c hfb with h | ⟨hw, hh, h⟩
    · rw [h]; exact fun j _ => rfl
    · rw [h]; intro j hj
      rw [fbAt_setFb, fbAt_some s sz fb j hfb]
      exact memSet_out _ _ _ _ _ (by omega)

theorem pixel_outside (s : DState) (x y : Int) (c : Nat) :
    PreservesOutside s (rgb_gfx_pixel s x y c) := by
  rcases hfb : s.framebuffer with _ | ⟨sz, fb⟩
  · intro j hj; simp [rgb_gfx_pixel, rgb_display_get_framebuffer, hfb]
  · rcases pixel_shape s sz fb x y c hfb with h | ⟨hx0, hxw, hy0, hyh, h⟩
    · rw [h]; exact fun j _ => rfl
    · rw [h]; intro j hj
      rw [fbAt_setFb, fbAt_some s sz fb j hfb]
      have hr := rowcol_lt (rgb_display_get_fb_width s)
        (rgb_display_get_fb_height s) y x hy0 hyh hx0 hxw
      exact memWrite_ne _ _ _ _ (by omega)

theorem hline_outside (s : DState) (x y len : Int) (c : Nat) :
    PreservesOutside s (rgb_gfx_hline s x y len c) := by
  rcases hfb : s.framebuffer with _ | ⟨sz, fb⟩
  · intro j hj; simp [rgb_gfx_hline, rgb_display_get_framebuffer, hfb]
  · rcases hline_shape s sz fb x y len c hfb with h | ⟨x', l', hx0, hxl, hl, hy0, hyh, h⟩
    · rw [h]; exact fun j _ => rfl
    · rw [h]; intro j hj
      rw [fbAt_setFb, fbAt_some s sz fb j hfb]
      have hseg := seg_subset (rgb_display_get_fb_width s)
        (rgb_display_get_fb_height s) y x' l' hy0 hyh hx0 hxl hl
      exact memSet_out _ _ _ _ _ (by omega)

theorem vline_outside (s : DState) (x y len : Int) (c : Nat) :
    PreservesOutside s (rgb_gfx_vline s x y len c) := by
  rcases hfb : s.framebuffer with _ | ⟨sz, fb⟩
  · intro j hj; simp [rgb_gfx_vline, rgb_display_get_framebuffer, hfb]
  · rcases vline_shape s sz fb x y len c hfb with h | ⟨y', l', hy0, hyl, hl, hx0, hxw, h⟩
    · rw [h]; exact fun j _ => rfl
    · rw [h]; intro j hj
      rw [fbAt_setFb, fbAt_some s sz fb j hfb]
      apply vlineLoop_out
      intro i hi
      have hrew : y' * rgb_display_get_fb_width s + x +
          (i : Int) * rgb_display_get_fb_width s =
          (y' + (i : Int)) * rgb_display_get_fb_width s + x := by ring
      rw [hrew]
      have hiI : (i : Int) < l' := by omega
      have hr := rowcol_lt (rgb_display_get_fb_width s)
        (rgb_display_get_fb_height s) (y' + (i : Int)) x
        (by omega) (by omega) hx0 hxw
      omega

theorem rectfill_outside (s : DState) (x y rw rh : Int) (c : Nat) :
    PreservesOutside s (rgb_gfx_rectfill s x y rw rh c) := by
  rcases hfb : s.framebuffer with _ | ⟨sz, fb⟩
  · intro j hj; simp [rgb_gfx_rectfill, rgb_display_get_framebuffer, hfb]
  · rcases rectfill_shape s sz fb x y rw rh c hfb with
      h | ⟨x0, cw, y0, ch, hx0, hxw, hcw, hy0, hyh, hch, h⟩
    · rw [h]; exact fun j _ => rfl
    · rw [h]; intro j hj
      rw [fbAt_setFb, fbAt_some s sz fb j hfb]
      apply rectfillRows_out
      intro i hi
      have hiI : (i : Int) < ch := by omega
      have hseg := seg_subset (rgb_display_get_fb_width s)
        (rgb_display_get_fb_height s) (y0 + (i : Int)) x0 cw
        (by omega) (by omega) hx0 hxw hcw
      omega

theorem blit_outside (s : DState) (d : Option Mem) (x y sw sh st t : Int) :
    PreservesOutside s (rgb_gfx_blit s d x y sw sh st t) := by
  rcases hfb : s.framebuffer with _ | ⟨sz, fb⟩
  · intro j hj; simp [rgb_gfx_blit, rgb_display_get_framebuffer, hfb]
  · rcases d with _ | d
    · intro j hj; simp [rgb_gfx_blit, rgb_display_get_framebuffer, hfb]
    · rcases blit_shape s sz fb d x y sw sh st t hfb with ⟨_, h⟩ | ⟨_, _, h⟩
      · rw [h]; exact fun j _ => rfl
      · rw [h]; intro j hj
        rw [fbAt_setFb, fbAt_some s sz fb j hfb]
        apply blitRows_out
        intro m hm hm0 hmh dx hdx0 hdxw
        have hr := rowcol_lt (rgb_display_get_fb_width s)
          (rgb_display_get_fb_height s) (y + (m : Int)) dx hm0 hmh hdx0 hdxw
        omega

theorem blit_flip_outside (s : DState) (d : Option Mem) (x y sw sh st t : Int)
    (fx fy : Bool) :
    PreservesOutside s (rgb_gfx_blit_flip s d x y sw sh st t fx fy) := by
  rcases hfb : s.framebuffer with _ | ⟨sz, fb⟩
  · intro j hj; simp [rgb_gfx_blit_flip, rgb_display_get_framebuffer, hfb]
  · rcases d with _ | d
    · intro j hj; simp [rgb_gfx_blit_flip, rgb_display_get_framebuffer, hfb]
    · rcases blit_flip_shape s sz fb d x y sw sh st t fx fy hfb with
        ⟨_, h⟩ | ⟨_, _, h⟩
      · rw [h]; exact fun j _ => rfl
      · rw [h]; intro j hj
        rw [fbAt_setFb, fbAt_some s sz fb j hfb]
        apply blitFlipRows_out
        intro m hm hm0 hmh dx hdx0 hdxw
        have hr := rowcol_lt (rgb_display_get_fb_width s)
          (rgb_display_get_fb_height s) (y + (m : Int)) dx hm0 hmh hdx0 hdxw
        omega

theorem hline_dims (s : DState) (x y len : Int) (c : Nat) :
    (rgb_gfx_hline s x y len c).gfxWidth = s.gfxWidth ∧
    (rgb_gfx_hline s x y len c).gfxHeight = s.gfxHeight := by
  rcases hfb : s.framebuffer with _ | ⟨sz, fb⟩
  · simp [rgb_gfx_hline, rgb_display_get_framebuffer, hfb]
  · rcases hline_shape s sz fb x y len c hfb with h | ⟨x', l', _, _, _, _, _, h⟩ <;>
      rw [h] <;> exact ⟨rfl, rfl⟩

theorem vline_dims (s : DState) (x y len : Int) (c : Nat) :
    (rgb_gfx_vline s x y len c).gfxWidth = s.gfxWidth ∧
    (rgb_gfx_vline s x y len c).gfxHeight = s.gfxHeight := by
  rcases hfb : s.framebuffer with _ | ⟨sz, fb⟩
  · simp [rgb_gfx_vline, rgb_display_get_framebuffer, hfb]
  · rcases vline_shape s sz fb x y len c hfb with h | ⟨y', l', _, _, _, _, _, h⟩ <;>
      rw [h] <;> exact ⟨rfl, rfl⟩

theorem preserves_outside_trans (s1 s2 s3 : DState)
    (hW : rgb_display_get_fb_width s2 = rgb_display_get_fb_width s1)
    (hH : rgb_display_get_fb_height s2 = rgb_display_get_fb_height s1)
    (h12 : PreservesOutside s1 s2) (h23 : PreservesOutside s2 s3) :
    PreservesOutside s1 s3 := by
  intro j hj
  rw [h23 j (by rw [hW, hH]; exact hj)]
  exact h12 j hj

theorem rect_outside (s : DState) (x y rw rh : Int) (c : Nat) :
    PreservesOutside s (rgb_gfx_rect s x y rw rh c) := by
  simp only [rgb_gfx_rect]
  split_ifs with h1 h2
  · exact fun j _ => rfl
  · have d1 := hline_dims s x y rw c
    have d2 := hline_dims (rgb_gfx_hline s x y rw c) x (y + rh - 1) rw c
    have d3 := vline_dims
      (rgb_gfx_hline (rgb_gfx_hline s x y rw c) x (y + rh - 1) rw c)
      x (y + 1) (rh - 2) c
    exact preserves_outside_trans _ _ _ d1.1 d1.2 (hline_outside s x y rw c)
      (preserves_outside_trans _ _ _ d2.1 d2.2 (hline_outside _ x (y + rh - 1) rw c)
        (preserves_outside_trans _ _ _ d3.1 d3.2 (vline_outside _ x (y + 1) (rh - 2) c)
          (vline_outside _ (x + rw - 1) (y + 1) (rh - 2) c)))
  · have d1 := hline_dims s x y rw c
    exact preserves_outside_trans _ _ _ d1.1 d1.2 (hline_outside s x y rw c)
      (hline_outside _ x (y + rh - 1) rw c)

theorem rectfill_scenario (s : DState) (sz : Nat) (fb : Mem) (cc : Nat)
    (px py : Int) (hfb : s.framebuffer = some (sz, fb))
    (hw : rgb_display_get_fb_width s = 256)
    (hh : rgb_display_get_fb_height s = 150)
    (hpx0 : 0 ≤ px) (hpxw : px < 256) (hpy0 : 0 ≤ py) (hpyh : py < 150) :
    fbAt (rgb_gfx_rectfill s (-5) (-5) 20 20 cc) (py * 256 + px) =
      if px < 15 ∧ py < 15 then cc else fb (py * 256 + px) := by
  have hred : rgb_gfx_rectfill s (-5) (-5) 20 20 cc =
      setFb s sz (rectfillRows fb 256 0 15 0 cc 15) := by
    simp [rgb_gfx_rectfill, rgb_display_get_framebuffer, hfb, hw, hh]
  rw [hred, fbAt_setFb]
  by_cases hin : px < 15 ∧ py < 15
  · rw [if_pos hin]
    exact rectfillRows_in fb 256 0 15 0 cc 15 (py * 256 + px) py.toNat
      (by omega) (by omega) (by omega)
  · rw [if_neg hin]
    exact rectfillRows_out fb 256 0 15 0 cc 15 (py * 256 + px)
      (fun i hi => by omega)

theorem hline_scenario (s : DState) (sz : Nat) (fb : Mem) (cc : Nat)
    (px py : Int) (hfb : s.framebuffer = some (sz, fb))
    (hw : rgb_display_get_fb_width s = 256)
    (hh : rgb_display_get_fb_height s = 150)
    (hpx0 : 0 ≤ px) (hpxw : px < 256) (hpy0 : 0 ≤ py) (hpyh : py < 150) :
    fbAt (rgb_gfx_hline s 250 0 20 cc) (py * 256 + px) =
      if py = 0 ∧ 250 ≤ px then cc else fb (py * 256 + px) := by
  have hred : rgb_gfx_hline s 250 0 20 cc =
      setFb s sz (memSet fb (0 * 256 + 250) 6 cc) := by
    simp [rgb_gfx_hline, rgb_display_get_framebuffer, hfb, hw, hh]
  rw [hred, fbAt_setFb]
  by_cases hin : py = 0 ∧ 250 ≤ px
  · rw [if_pos hin]
    exact memSet_in _ _ _ _ _ (by omega) (by omega)
  · rw [if_neg hin]
    exact memSet_out _ _ _ _ _ (by omega)

/-- C8: every graphics primitive is a silent no-op when the framebuffer
is null or a dimension is non-positive; every primitive writes only to
pixels with coordinates in `[0,width) x [0,height)` and leaves every
other framebuffer byte unchanged; and, concretely,
`rectfill(-5,-5,20,20,C)` on a 256x150 framebuffer paints exactly
`[0,15) x [0,15)`, while `hline(250,0,20,C)` on width 256 paints exactly
columns `[250,256)` of row 0. -/
theorem gfx_primitives_clipped :
    (∀ s c, gfxIdle s → rgb_gfx_clear s c = s) ∧
    (∀ s x y c, gfxIdle s → rgb_gfx_pixel s x y c = s) ∧
    (∀ s x y l c, gfxIdle s → rgb_gfx_hline s x y l c = s) ∧
    (∀ s x y l c, gfxIdle s → rgb_gfx_vline s x y l c = s) ∧
    (∀ s x y rw rh c, gfxIdle s → rgb_gfx_rect s x y rw rh c = s) ∧
    (∀ s x y rw rh c, gfxIdle s → rgb_gfx_rectfill s x y rw rh c = s) ∧
    (∀ s d x y sw sh st t, gfxIdle s → rgb_gfx_blit s d x y sw sh st t = s) ∧
    (∀ s d x y sw sh st t fx fy, gfxIdle s →
      rgb_gfx_blit_flip s d x y sw sh st t fx fy = s) ∧
    (∀ s c, PreservesOutside s (rgb_gfx_clear s c)) ∧
    (∀ s x y c, PreservesOutside s (rgb_gfx_pixel s x y c)) ∧
    (∀ s x y l c, PreservesOutside s (rgb_gfx_hline s x y l c)) ∧
    (∀ s x y l c, PreservesOutside s (rgb_gfx_vline s x y l c)) ∧
    (∀ s x y rw rh c, PreservesOutside s (rgb_gfx_rect s x y rw rh c)) ∧
    (∀ s x y rw rh c, PreservesOutside s (rgb_gfx_rectfill s x y rw rh c)) ∧
    (∀ s d x y sw sh st t, PreservesOutside s (rgb_gfx_blit s d x y sw sh st t)) ∧
    (∀ s d x y sw sh st t fx fy,
      PreservesOutside s (rgb_gfx_blit_flip s d x y sw sh st t fx fy)) ∧
    (∀ s sz fb cc px py, s.framebuffer = some (sz, fb) →
      rgb_display_get_fb_width s = 256 → rgb_display_get_fb_height s = 150 →
      0 ≤ px → px < 256 → 0 ≤ py → py < 150 →
      fbAt (rgb_gfx_rectfill s (-5) (-5) 20 20 cc) (py * 256 + px) =
        if px < 15 ∧ py < 15 then cc else fb (py * 256 + px)) ∧
    (∀ s sz fb cc px py, s.framebuffer = some (sz, fb) →
      rgb_display_get_fb_width s = 256 → rgb_display_get_fb_height s = 150 →
      0 ≤ px → px < 256 → 0 ≤ py → py < 150 →
      fbAt (rgb_gfx_hline s 250 0 20 cc) (py * 256 + px) =
        if py = 0 ∧ 250 ≤ px then cc else fb (py * 256 + px)) :=
  ⟨clear_idle, pixel_idle, hline_idle, vline_idle, rect_idle, rectfill_idle,
   blit_idle, blit_flip_idle, clear_outside, pixel_outside, hline_outside,
   vline_outside, rect_outside, rectfill_outside, blit_outside,
   blit_flip_outside, rectfill_scenario, hline_scenario⟩

/-- C8 witness: on a concrete 256x150 framebuffer, the clipped rectfill
paints pixel (4,3) and the clipped hline paints pixel (250,0). -/
theorem gfx_primitives_clipped_witness :
    fbAt (rgb_gfx_rectfill gfxW (-5) (-5) 20 20 9) (3 * 256 + 4) =
      (if (4 : Int) < 15 ∧ (3 : Int) < 15 then 9
       else (fun _ => 0 : Mem) (3 * 256 + 4)) ∧
    fbAt (rgb_gfx_hline gfxW 250 0 20 9) (0 * 256 + 250) =
      (if (0 : Int) = 0 ∧ 250 ≤ (250 : Int) then 9
       else (fun _ => 0 : Mem) (0 * 256 + 250)) := by
  have h := gfx_primitives_clipped
  exact ⟨h.2.2.2.2.2.2.2.2.2.2.2.2.2.2.2.2.1 gfxW GFX_150P_SIZE (fun _ => 0) 9
      4 3 (by rfl) rfl rfl (by norm_num) (by norm_num) (by norm_num) (by norm_num),
    h.2.2.2.2.2.2.2.2.2.2.2.2.2.2.2.2.2 gfxW GFX_150P_SIZE (fun _ => 0) 9
      250 0 (by rfl) rfl rfl (by norm_num) (by norm_num) (by norm_num) (by norm_num)⟩

/-! ## Helper lemmas for blit transparency -/

theorem blitRowLoop_eval (fb data : Mem) (srcB dstB x w t : Int) :
    ∀ count (n : Nat), n < count → 0 ≤ x + (n : Int) → x + (n : Int) < w →
    blitRowLoop fb data srcB dstB x w t count (dstB + (x + (n : Int))) =
      (if t < 0 ∨ ((data (srcB + (n : Int)) : Int) ≠ t % 256)
       then data (srcB + (n : Int))
       else fb (dstB + (x + (n : Int)))) := by
  intro count
  induction count with
  | zero => intro n hn; omega
  | succ k ih =>
    intro n hn h0 hw
    by_cases hnk : n = k
    · rw [hnk] at h0 hw ⊢
      simp only [blitRowLoop]
      rw [if_neg (by omega)]
      by_cases ht : t < 0 ∨ ((data (srcB + (k : Int)) : Int) ≠ t % 256)
      · rw [if_pos ht, if_pos ht, memWrite_self]
      · rw [if_neg ht, if_neg ht]
        exact blitRowLoop_out _ _ _ _ _ _ _ _ _ (fun m hm _ _ => by omega)
    · have hlt : n < k := by omega
      have hne : dstB + (x + (n : Int)) ≠ dstB + (x + (k : Int)) := by omega
      have hstep : blitRowLoop fb data srcB dstB x w t (k + 1)
          (dstB + (x + (n : Int))) =
          blitRowLoop fb data srcB dstB x w t k (dstB + (x + (n : Int))) := by
        simp only [blitRowLoop]
        split_ifs <;> first | rfl | exact memWrite_ne _ _ _ _ hne
      rw [hstep]
      exact ih n hlt h0 hw

theorem blitRows_eval (fb d : Mem) (x y w h st t : Int) (swN : Nat) :
    ∀ rows (sy sx : Nat), sy < rows → sx < swN →
    0 ≤ y + (sy : Int) → y + (sy : Int) < h →
    0 ≤ x + (sx : Int) → x + (sx : Int) < w →
    blitRows fb d x y w h st t swN rows
        ((y + (sy : Int)) * w + (x + (sx : Int))) =
      (if t < 0 ∨ ((d ((sy : Int) * st + (sx : Int)) : Int) ≠ t % 256)
       then d ((sy : Int) * st + (sx : Int))
       else fb ((y + (sy : Int)) * w + (x + (sx : Int)))) := by
  intro rows
  induction rows with
  | zero => intro sy sx hsy; omega
  | succ k ih =>
    intro sy sx hsy hsx hy0 hyh hx0 hxw
    by_cases hsk : sy = k
    · rw [hsk] at hy0 hyh ⊢
      simp only [blitRows]
      rw [if_neg (by omega)]
      rw [blitRowLoop_eval _ d ((k : Int) * st) ((y + (k : Int)) * w)
        x w t swN sx hsx hx0 hxw]
      by_cases ht : t < 0 ∨ ((d ((k : Int) * st + (sx : Int)) : Int) ≠ t % 256)
      · rw [if_pos ht, if_pos ht]
      · rw [if_neg ht, if_neg ht]
        exact blitRows_out fb d x y w h st t swN k _
          (fun m hm hm0 hmh dx hdx0 hdxw =>
            row_index_ne w (y + (k : Int)) (y + (m : Int))
              (x + (sx : Int)) dx hx0 hxw hdx0 hdxw (by omega))
    · have hlt : sy < k := by omega
      have hstep : blitRows fb d x y w h st t swN (k + 1)
          ((y + (sy : Int)) * w + (x + (sx : Int))) =
          blitRows fb d x y w h st t swN k
            ((y + (sy : Int)) * w + (x + (sx : Int))) := by
        simp only [blitRows]
        split_ifs with h1
        · rfl
        · exact blitRowLoop_out _ _ _ _ _ _ _ _ _
            (fun m hm hm0 hmw =>
              row_index_ne w (y + (sy : Int)) (y + (k : Int))
                (x + (sx : Int)) (x + (m : Int)) hx0 hxw hm0 hmw (by omega))
      rw [hstep]
      exact ih sy sx hlt hsx hy0 hyh hx0 hxw

theorem blitFlipRowLoop_eval (fb data : Mem) (srcB dstB x w t swI : Int)
    (fx : Bool) :
    ∀ count (n : Nat), n < count → 0 ≤ x + (n : Int) → x + (n : Int) < w →
    blitFlipRowLoop fb data srcB dstB x w t swI fx count
        (dstB + (x + (n : Int))) =
      (if t < 0 ∨ ((data (srcB + (if fx then swI - 1 - (n : Int)
            else (n : Int))) : Int) ≠ t % 256)
       then data (srcB + (if fx then swI - 1 - (n : Int) else (n : Int)))
       else fb (dstB + (x + (n : Int)))) := by
  intro count
  induction count with
  | zero => intro n hn; omega
  | succ k ih =>
    intro n hn h0 hw
    by_cases hnk : n = k
    · rw [hnk] at h0 hw ⊢
      simp only [blitFlipRowLoop]
      rw [if_neg (by omega)]
      by_cases ht : t < 0 ∨ ((data (srcB + (if fx then swI - 1 - (k : Int)
          else (k : Int))) : Int) ≠ t % 256)
      · rw [if_pos ht, if_pos ht, memWrite_self]
      · rw [if_neg ht, if_neg ht]
        exact blitFlipRowLoop_out _ _ _ _ _ _ _ _ _ _ _
          (fun m hm _ _ => by omega)
    · have hlt : n < k := by omega
      have hne : dstB + (x + (n : Int)) ≠ dstB + (x + (k : Int)) := by omega
      have hstep : blitFlipRowLoop fb data srcB dstB x w t swI fx (k + 1)
          (dstB + (x + (n : Int))) =
          blitFlipRowLoop fb data srcB dstB x w t swI fx k
            (dstB + (x + (n : Int))) := by
        simp only [blitFlipRowLoop]
        split_ifs <;> first | rfl | exact memWrite_ne _ _ _ _ hne
      rw [hstep]
      exact ih n hlt h0 hw

theorem blitFlipRows_eval (fb d : Mem) (x y w h st t swI shI : Int)
    (fx fy : Bool) (swN : Nat) :
    ∀ rows (sy sx : Nat), sy < rows → sx < swN →
    0 ≤ y + (sy : Int) → y + (sy : Int) < h →
    0 ≤ x + (sx : Int) → x + (sx : Int) < w →
    blitFlipRows fb d x y w h st t swI shI fx fy swN rows
        ((y + (sy : Int)) * w + (x + (sx : Int))) =
      (if t < 0 ∨ ((d ((if fy then shI - 1 - (sy : Int) else (sy : Int)) * st +
            (if fx then swI - 1 - (sx : Int) else (sx : Int))) : Int) ≠ t % 256)
       then d ((if fy then shI - 1 - (sy : Int) else (sy : Int)) * st +
            (if fx then swI - 1 - (sx : Int) else (sx : Int)))
       else fb ((y + (sy : Int)) * w + (x + (sx : Int)))) := by
  intro rows
  induction rows with
  | zero => intro sy sx hsy; omega
  | succ k ih =>
    intro sy sx hsy hsx hy0 hyh hx0 hxw
    by_cases hsk : sy = k
    · rw [hsk] at hy0 hyh ⊢
      simp only [blitFlipRows]
      rw [if_neg (by omega)]
      rw [blitFlipRowLoop_eval _ d
        ((if fy then shI - 1 - (k : Int) else (k : Int)) * st)
        ((y + (k : Int)) * w) x w t swI fx swN sx hsx hx0 hxw]
      by_cases ht : t < 0 ∨
          ((d ((if fy then shI - 1 - (k : Int) else (k : Int)) * st +
            (if fx then swI - 1 - (sx : Int) else (sx : Int))) : Int) ≠ t % 256)
      · rw [if_pos ht, if_pos ht]
      · rw [if_neg ht, if_neg ht]
        exact blitFlipRows_out fb d x y w h st t swI shI fx fy swN k _
          (fun m hm hm0 hmh dx hdx0 hdxw =>
            row_index_ne w (y + (k : Int)) (y + (m : Int))
              (x + (sx : Int)) dx hx0 hxw hdx0 hdxw (by omega))
    · have hlt : sy < k := by omega
      have hstep : blitFlipRows fb d x y w h st t swI shI fx fy swN (k + 1)
          ((y + (sy : Int)) * w + (x + (sx : Int))) =
          blitFlipRows fb d x y w h st t swI shI fx fy swN k
            ((y + (sy : Int)) * w + (x + (sx : Int))) := by
        simp only [blitFlipRows]
        split_ifs <;>
          first
            | rfl
            | exact blitFlipRowLoop_out _ _ _ _ _ _ _ _ _ _ _
                (fun m hm hm0 hmw =>
                  row_index_ne w (y + (sy : Int)) (y + (k : Int))
                    (x + (sx : Int)) (x + (m : Int)) hx0 hxw hm0 hmw (by omega))
      rw [hstep]
      exact ih sy sx hlt hsx hy0 hyh hx0 hxw

/-- C10: for every non-negative transparent-color argument `t` of the
signed int parameter, `rgb_gfx_blit` and `rgb_gfx_blit_flip` skip exactly
those in-bounds source pixels whose byte value equals `t` modulo 256
(leaving the destination byte unchanged) and copy every other in-bounds
source pixel; the flip variant reads the source mirrored according to the
flip flags.  In particular, for `t ≥ 256` (e.g. `t = 263`), pixels equal
to `t - 256` are treated as transparent even though no byte equals `t`. -/
theorem blit_transparency_mod256 (s : DState) (sz : Nat) (fb d : Mem)
    (x y sw sh st t : Int) (fx fy : Bool) (sx sy : Nat)
    (hfb : s.framebuffer = some (sz, fb)) (ht : 0 ≤ t)
    (hsx : (sx : Int) < sw) (hsy : (sy : Int) < sh)
    (hdx0 : 0 ≤ x + (sx : Int))
    (hdxw : x + (sx : Int) < rgb_display_get_fb_width s)
    (hdy0 : 0 ≤ y + (sy : Int))
    (hdyh : y + (sy : Int) < rgb_display_get_fb_height s) :
    fbAt (rgb_gfx_blit s (some d) x y sw sh st t)
        ((y + (sy : Int)) * rgb_display_get_fb_width s + (x + (sx : Int))) =
      (if (d ((sy : Int) * st + (sx : Int)) : Int) = t % 256
       then fb ((y + (sy : Int)) * rgb_display_get_fb_width s + (x + (sx : Int)))
       else d ((sy : Int) * st + (sx : Int))) ∧
    fbAt (rgb_gfx_blit_flip s (some d) x y sw sh st t fx fy)
        ((y + (sy : Int)) * rgb_display_get_fb_width s + (x + (sx : Int))) =
      (if (d ((if fy then sh - 1 - (sy : Int) else (sy : Int)) * st +
            (if fx then sw - 1 - (sx : Int) else (sx : Int))) : Int) = t % 256
       then fb ((y + (sy : Int)) * rgb_display_get_fb_width s + (x + (sx : Int)))
       else d ((if fy then sh - 1 - (sy : Int) else (sy : Int)) * st +
            (if fx then sw - 1 - (sx : Int) else (sx : Int)))) := by
  constructor
  · rcases blit_shape s sz fb d x y sw sh st t hfb with ⟨hg, _⟩ | ⟨_, _, h⟩
    · exact absurd hg (by omega)
    · rw [h, fbAt_setFb]
      rw [blitRows_eval fb d x y (rgb_display_get_fb_width s)
        (rgb_display_get_fb_height s) st t sw.toNat sh.toNat sy sx
        (by omega) (by omega) hdy0 hdyh hdx0 hdxw]
      by_cases he : (d ((sy : Int) * st + (sx : Int)) : Int) = t % 256
      · rw [if_neg (by push_neg; exact ⟨by omega, he⟩), if_pos he]
      · rw [if_pos (Or.inr he), if_neg he]
  · rcases blit_flip_shape s sz fb d x y sw sh st t fx fy hfb with
      ⟨hg, _⟩ | ⟨_, _, h⟩
    · exact absurd hg (by omega)
    · rw [h, fbAt_setFb]
      rw [blitFlipRows_eval fb d x y (rgb_display_get_fb_width s)
        (rgb_display_get_fb_height s) st t sw sh fx fy sw.toNat sh.toNat sy sx
        (by omega) (by omega) hdy0 hdyh hdx0 hdxw]
      by_cases he : (d ((if fy then sh - 1 - (sy : Int) else (sy : Int)) * st +
          (if fx then sw - 1 - (sx : Int) else (sx : Int))) : Int) = t % 256
      · rw [if_neg (by push_neg; exact ⟨by omega, he⟩), if_pos he]
      · rw [if_pos (Or.inr he), if_neg he]

/-- C10 witness: blitting a 2x1 sprite `[7, 1]` with transparent color
263 (= 7 mod 256) onto a zeroed 256x150 framebuffer skips the 7 pixel
(destination byte stays 0) and copies the 1 pixel. -/
theorem blit_transparency_mod256_witness :
    fbAt (rgb_gfx_blit gfxW (some spriteW) 0 0 2 1 2 263) 0 = 0 ∧
    fbAt (rgb_gfx_blit gfxW (some spriteW) 0 0 2 1 2 263) 1 = 1 := by
  have h0 := (blit_transparency_mod256 gfxW GFX_150P_SIZE (fun _ => 0) spriteW
    0 0 2 1 2 263 false false 0 0 (by rfl) (by norm_num) (by norm_num)
    (by norm_num) (by norm_num) (by decide) (by norm_num) (by decide)).1
  have h1 := (blit_transparency_mod256 gfxW GFX_150P_SIZE (fun _ => 0) spriteW
    0 0 2 1 2 263 false false 1 0 (by rfl) (by norm_num) (by norm_num)
    (by norm_num) (by norm_num) (by decide) (by norm_num) (by decide)).1
  constructor
  · simpa [spriteW, rgb_display_get_fb_width, gfxW] using h0
  · simpa [spriteW, rgb_display_get_fb_width, gfxW] using h1

/-! ## Helper lemmas for the scanline synthesizer -/

theorem writeRep_eval (m : Mem) (base : Int) (v : Nat) :
    ∀ rep (k : Nat), k < rep → writeRep m base v rep (base + (k : Int)) = v := by
  intro rep
  induction rep with
  | zero => intro k hk; omega
  | succ r ih =>
    intro k hk
    simp only [writeRep]
    by_cases hkr : k = r
    · rw [hkr, memWrite_self]
    · rw [memWrite_ne _ _ _ _ (by omega)]
      exact ih k (by omega)

theorem writeRep_out (m : Mem) (base : Int) (v : Nat) :
    ∀ (rep : Nat) (j : Int), (j < base ∨ base + (rep : Int) ≤ j) →
    writeRep m base v rep j = m j := by
  intro rep
  induction rep with
  | zero => intro j _; rfl
  | succ r ih =>
    intro j hj
    simp only [writeRep]
    rw [memWrite_ne _ _ _ _ (by omega)]
    exact ih j (by omega)

theorem renderRowGfx_eval (pal fbData : Mem) (srcBase destBase : Int)
    (rep : Nat) :
    ∀ count (xx k : Nat) (m : Mem), xx < count → k < rep →
    renderRowGfx pal fbData srcBase destBase rep count m
        (destBase + ((rep * xx + k : Nat) : Int)) =
      pal (fbData (srcBase + (xx : Int))) := by
  intro count
  induction count with
  | zero => intro xx k m hxx; omega
  | succ n ih =>
    intro xx k m hxx hk
    simp only [renderRowGfx]
    by_cases hxn : xx = n
    · rw [hxn]
      have hidx : destBase + ((rep * n + k : Nat) : Int) =
          (destBase + ((rep * n : Nat) : Int)) + (k : Int) := by
        push_cast; ring
      rw [hidx]
      exact writeRep_eval _ _ _ rep k hk
    · have hxlt : xx < n := by omega
      have hmul : rep * xx + k < rep * n := by
        have h1 : rep * (xx + 1) ≤ rep * n := Nat.mul_le_mul_left rep (by omega)
        have h2 : rep * (xx + 1) = rep * xx + rep := by ring
        omega
      have hout := writeRep_out (renderRowGfx pal fbData srcBase destBase rep n m)
        (destBase + ((rep * n : Nat) : Int)) (pal (fbData (srcBase + (n : Int))))
        rep (destBase + ((rep * xx + k : Nat) : Int))
        (Or.inl (by push_cast at hmul ⊢; omega))
      rw [hout]
      exact ih xx k m hxlt hk

theorem renderRowGfx_out (pal fbData : Mem) (srcBase destBase : Int)
    (rep : Nat) :
    ∀ count (m : Mem) (j : Int),
    (j < destBase ∨ destBase + ((rep * count : Nat) : Int) ≤ j) →
    renderRowGfx pal fbData srcBase destBase rep count m j = m j := by
  intro count
  induction count with
  | zero => intro m j _; rfl
  | succ n ih =>
    intro m j hj
    simp only [renderRowGfx]
    have hsucc : rep * (n + 1) = rep * n + rep := by ring
    rw [hsucc] at hj
    have hout := writeRep_out (renderRowGfx pal fbData srcBase destBase rep n m)
      (destBase + ((rep * n : Nat) : Int)) (pal (fbData (srcBase + (n : Int))))
      rep j (by push_cast at hj ⊢; omega)
    rw [hout]
    exact ih m j (by push_cast at hj ⊢; omega)

theorem gfxLines_eval (pal fbData : Mem) (gw gh scale margin : Int)
    (y_start : Nat) (rep : Nat)
    (hrep : (if scale = (4 : Int) then (4 : Nat) else 3) = rep)
    (hmargin : 0 ≤ margin)
    (hgeom : margin + ((rep * gw.toNat : Nat) : Int) ≤ 1024) :
    ∀ count (L xx k : Nat) (m : Mem), L < count → xx < gw.toNat → k < rep →
    ((y_start + L : Nat) : Int) / scale < gh →
    gfxLines pal fbData gw gh scale margin y_start count m
        ((L : Int) * 1024 + margin + ((rep * xx + k : Nat) : Int)) =
      pal (fbData ((((y_start + L : Nat) : Int) / scale) * gw + (xx : Int))) := by
  intro count
  induction count with
  | zero => intro L xx k m hL; omega
  | succ n ih =>
    intro L xx k m hL hxx hk hsrc
    by_cases hLn : L = n
    · rw [hLn] at hsrc ⊢
      simp only [gfxLines]
      rw [if_neg (not_le.mpr hsrc), hrep]
      exact renderRowGfx_eval pal fbData _ _ rep gw.toNat xx k _ hxx hk
    · have hLlt : L < n := by omega
      have hmul : rep * xx + k < rep * gw.toNat := by
        have h1 : rep * (xx + 1) ≤ rep * gw.toNat :=
          Nat.mul_le_mul_left rep (by omega)
        have h2 : rep * (xx + 1) = rep * xx + rep := by ring
        omega
      simp only [gfxLines]
      rw [hrep]
      split_ifs with hskip
      · exact ih L xx k m hLlt hxx hk hsrc
      · have hout := renderRowGfx_out pal fbData
          ((((y_start + n : Nat) : Int) / scale) * gw)
          ((n : Int) * (SCREEN_WIDTH : Int) + margin) rep gw.toNat
          (gfxLines pal fbData gw gh scale margin y_start n m)
          ((L : Int) * 1024 + margin + ((rep * xx + k : Nat) : Int))
          (Or.inl (by
            simp only [SCREEN_WIDTH]
            push_cast at hmul ⊢
            omega))
        rw [hout]
        exact ih L xx k m hLlt hxx hk hsrc

/-- C1: in mode Graphics-256x150 (scale 4, no left margin) with the
framebuffer filled with palette index 5 and palette entry 5 = 0x1234, a
synthesizer invocation covering 4 destination scanlines at pixel-row
offset 0 (pos_px = 0, len_bytes = 8192) writes every pixel of each of the
4 full 1024-wide destination rows as 0x1234 (each source pixel's color
replicated 4 times), and every destination row maps to source row 0 by
integer division by the upscale factor. -/
theorem scanline_150p_scenario (s : DState) (sz : Nat) (fbData : Mem)
    (line px : Nat)
    (hmode : s.mode = SM_150P)
    (hw : s.gfxWidth = 256) (hh : s.gfxHeight = 150)
    (hs4 : s.gfxScale = 4) (hm : s.gfxMarginX = 0)
    (hfb : s.framebuffer = some (sz, fbData))
    (hfill : ∀ j : Int, 0 ≤ j → j < 38400 → fbData j = 5)
    (hpal : s.vgaPalette 5 = 0x1234)
    (hline : line < 4) (hpx : px < 1024) :
    on_bounce_empty_gfx s 0 8192 ((line : Int) * 1024 + (px : Int)) = 0x1234 ∧
    ((0 + line : Nat) : Int) / s.gfxScale = 0 := by
  constructor
  · have hred : on_bounce_empty_gfx s 0 8192 =
        gfxLines s.vgaPalette fbData 256 150 4 0 0 4 (fun _ => 0) := by
      simp [on_bounce_empty_gfx, hmode, hfb, hw, hh, hs4, hm,
        SM_150P, SM_VGA13H, SCREEN_WIDTH]
    rw [hred]
    obtain ⟨xx, k, hk, hxk⟩ : ∃ xx k, k < 4 ∧ px = 4 * xx + k :=
      ⟨px / 4, px % 4, Nat.mod_lt _ (by norm_num), (Nat.div_add_mod px 4).symm⟩
    subst hxk
    have hxx : xx < 256 := by omega
    have hidx : (line : Int) * 1024 + ((4 * xx + k : Nat) : Int) =
        (line : Int) * 1024 + 0 + ((4 * xx + k : Nat) : Int) := by ring
    rw [hidx]
    have heval := gfxLines_eval s.vgaPalette fbData 256 150 4 0 0 4 rfl
      (by norm_num) (by norm_num) 4 line xx k (fun _ => 0) hline
      (by norm_num; omega) hk (by omega)
    rw [heval]
    have hS : ((0 + line : Nat) : Int) / 4 = 0 := by omega
    rw [hS]
    have hv : fbData ((0 : Int) * 256 + (xx : Int)) = 5 := by
      rw [show ((0 : Int) * 256 + (xx : Int)) = (xx : Int) by ring]
      exact hfill _ (by positivity) (by omega)
    rw [hv]
    exact_mod_cast hpal
  · rw [hs4]; omega

/-- C1 witness: destination row 2, pixel 1001 of the concrete scenario. -/
theorem scanline_150p_scenario_witness :
    on_bounce_empty_gfx c1W 0 8192
        (((2 : Nat) : Int) * 1024 + ((1001 : Nat) : Int)) = 0x1234 ∧
    ((0 + 2 : Nat) : Int) / c1W.gfxScale = 0 :=
  scanline_150p_scenario c1W GFX_150P_SIZE (fun _ => 5) 2 1001 rfl rfl rfl rfl
    rfl (by rfl) (fun j _ _ => rfl) (by simp [c1W]) (by norm_num) (by norm_num)
